import Mathlib

/-!
Verification of the `super_dev.design` engines (landing patterns, UX guide,
tech-stack practices, component code generator) against their natural-language
specification.  The Python modules are shallowly embedded below: pure methods
become Lean functions over the engine's record store, fallible code returns
`Except PyError`, and CSV rows are association lists from column names to
string values.
-/

set_option maxRecDepth 4000

/-! ## Python string primitives

The data handled by the engines is ASCII (plus case-less CJK text in a few
static tables), so `Char.toLower`, which lowers exactly the ASCII letters,
coincides with Python's `str.lower` on every string in play. -/

/-- Python `s.lower()` (structural over the character list, so that proofs
can evaluate it by kernel reduction). -/
def pyLower (s : String) : String := String.mk (s.data.map Char.toLower)

/-- Does the second list start with the first (over characters)? -/
def startsWithChars : List Char → List Char → Bool
  | [], _ => true
  | _ :: _, [] => false
  | c :: cs, d :: ds => c == d && startsWithChars cs ds

/-- Substring containment over character lists; the empty needle matches. -/
def containsChars (needle : List Char) : List Char → Bool
  | [] => startsWithChars needle []
  | d :: ds => startsWithChars needle (d :: ds) || containsChars needle ds

/-- Python `needle in haystack` on strings: substring containment
(the empty string is contained in every string). -/
def pyIn (needle haystack : String) : Bool :=
  containsChars needle.data haystack.data

/-- Helper for `pyWords`: accumulates the current word in reverse. -/
def pyWordsAux : List Char → List Char → List String
  | [], cur => if cur.isEmpty then [] else [String.mk cur.reverse]
  | c :: cs, cur =>
    if c.isWhitespace then
      if cur.isEmpty then pyWordsAux cs []
      else String.mk cur.reverse :: pyWordsAux cs []
    else pyWordsAux cs (c :: cur)

/-- Python `s.split()` with no argument: split on runs of whitespace,
dropping empty pieces. -/
def pyWords (s : String) : List String := pyWordsAux s.data []

/-- Python `s.strip()`: remove leading and trailing whitespace. -/
def pyStrip (s : String) : String :=
  String.mk (((s.data.dropWhile Char.isWhitespace).reverse.dropWhile
    Char.isWhitespace).reverse)

/-- Helper for `pyTitle`: the flag records whether the previous character was
alphabetic. -/
def pyTitleAux : Bool → List Char → List Char
  | _, [] => []
  | prevAlpha, c :: cs =>
    (if c.isAlpha then (if prevAlpha then c.toLower else c.toUpper) else c)
      :: pyTitleAux c.isAlpha cs

/-- Python `s.title()`: first letter of every alphabetic run upper-cased,
the rest lower-cased (ASCII). -/
def pyTitle (s : String) : String := String.mk (pyTitleAux false s.data)

/-- Python `s.replace(c, d)` for single-character patterns. -/
def pyReplaceChar (c d : Char) (s : String) : String :=
  String.mk (s.data.map (fun x => if x == c then d else x))

/-- Helper for `pySplitChar`: accumulates the current piece in reverse. -/
def splitCharAux (sep : Char) : List Char → List Char → List String
  | [], cur => [String.mk cur.reverse]
  | c :: cs, cur =>
    if c == sep then String.mk cur.reverse :: splitCharAux sep cs []
    else splitCharAux sep cs (c :: cur)

/-- Python `s.split(sep)` for a single-character separator: always at least
one piece, empty pieces preserved. -/
def pySplitChar (sep : Char) (s : String) : List String :=
  splitCharAux sep s.data []

/-- Python truthiness of a string: nonempty. -/
def pyTruthy (s : String) : Bool := s != ""

/-- Truthiness of an optional string argument (`None` and `""` are falsy). -/
def pyTruthyOpt : Option String → Bool
  | none => false
  | some s => pyTruthy s

/-! ## Python exceptions and CSV rows -/

/-- The Python exceptions the embedded code can raise. -/
inductive PyError : Type
  /-- Attribute lookup on a class failed (`AttributeError`). -/
  | attributeError (name : String)
  /-- A required dictionary key was absent (`KeyError`). -/
  | keyError (key : String)
  /-- An enum was constructed from an unknown value (`ValueError`). -/
  | valueError (value : String)
  /-- The module source does not compile, so importing it fails. -/
  | moduleLoadError (msg : String)
deriving DecidableEq, Repr

/-- A CSV row as produced by `csv.DictReader`: column name to cell value. -/
def Row : Type := List (String × String)

/-- Python `row[k]`: raises `KeyError` when the column is absent. -/
def rowReq (row : Row) (k : String) : Except PyError String :=
  match List.lookup k row with
  | some v => .ok v
  | none => .error (.keyError k)

/-- Python `row.get(k, dflt)`. -/
def rowGetD (row : Row) (k : String) (dflt : String) : String :=
  (List.lookup k row).getD dflt

/-- Python `row.get(k)` (default `None`). -/
def rowGet (row : Row) (k : String) : Option String :=
  List.lookup k row

/-! ## Stable descending sort

Python's `list.sort(key=k, reverse=True)` is the stable sort that puts larger
keys first and keeps the original relative order of elements with equal keys.
Any stable algorithm computes the same list; we use `List.mergeSort` with the
comparison `k b ≤ k a`, which Lean proves stable. -/

/-- The Boolean comparison of `list.sort(key, reverse=True)`:
`a` may precede `b` iff `key b ≤ key a`. -/
def leKeyDesc {α : Type} (key : α → Nat) (a b : α) : Bool :=
  decide (key b ≤ key a)

/-- Python `l.sort(key=key, reverse=True)`: stable descending sort by key. -/
def pySortDescBy {α : Type} (key : α → Nat) (l : List α) : List α :=
  l.mergeSort (leKeyDesc key)

/-- Python `l.sort(key=key)`: stable ascending sort by key. -/
def pySortAscBy {α : Type} (key : α → Nat) (l : List α) : List α :=
  l.mergeSort (fun a b => decide (key a ≤ key b))

theorem leKeyDesc_trans {α : Type} (key : α → Nat) :
    ∀ (a b c : α), leKeyDesc key a b → leKeyDesc key b c → leKeyDesc key a c := by
  intro a b c hab hbc
  simp only [leKeyDesc, decide_eq_true_eq] at *
  omega

theorem leKeyDesc_total {α : Type} (key : α → Nat) :
    ∀ (a b : α), leKeyDesc key a b || leKeyDesc key b a := by
  intro a b
  simp only [leKeyDesc, Bool.or_eq_true, decide_eq_true_eq]
  omega

/-- The descending sort sorts: keys are non-increasing along the output. -/
theorem pairwise_pySortDescBy {α : Type} (key : α → Nat) (l : List α) :
    (pySortDescBy key l).Pairwise (fun a b => key b ≤ key a) := by
  have h := List.sorted_mergeSort (leKeyDesc_trans key) (leKeyDesc_total key) l
  exact h.imp (by intro a b hab; simpa [leKeyDesc] using hab)

/-- Stability: the elements holding any fixed key keep exactly their original
relative order (and multiplicity) through the descending sort. -/
theorem filter_pySortDescBy {α : Type} (key : α → Nat) (l : List α) (s : Nat) :
    (pySortDescBy key l).filter (fun x => key x == s)
      = l.filter (fun x => key x == s) := by
  have hpair : (l.filter (fun x => key x == s)).Pairwise
      (fun a b => leKeyDesc key a b) := by
    refine List.pairwise_of_forall_mem_list ?_
    intro a ha b hb
    have ha2 := (List.mem_filter.mp ha).2
    have hb2 := (List.mem_filter.mp hb).2
    simp only [beq_iff_eq] at ha2 hb2
    simp [leKeyDesc, ha2, hb2]
  have hsub : List.Sublist (l.filter (fun x => key x == s)) (pySortDescBy key l) :=
    List.sublist_mergeSort (leKeyDesc_trans key) (leKeyDesc_total key)
      hpair (List.filter_sublist l)
  have hsub2 : List.Sublist (l.filter (fun x => key x == s))
      ((pySortDescBy key l).filter (fun x => key x == s)) := by
    have := hsub.filter (fun x => key x == s)
    simpa [List.filter_filter] using this
  have hperm : List.Perm ((pySortDescBy key l).filter (fun x => key x == s))
      (l.filter (fun x => key x == s)) :=
    (List.mergeSort_perm l (leKeyDesc key)).filter _
  exact (hsub2.eq_of_length hperm.length_eq.symm).symm

/-- Membership is preserved by the descending sort. -/
theorem mem_pySortDescBy {α : Type} (key : α → Nat) (l : List α) (x : α) :
    x ∈ pySortDescBy key l ↔ x ∈ l := List.mem_mergeSort

/-- An ascending stable sort whose key is constant over the whole type is the
identity: every adjacent pair ties, and a stable sort never swaps ties. -/
theorem pySortAscBy_const {α : Type} (c : Nat) (l : List α) :
    pySortAscBy (fun _ => c) l = l := by
  apply List.mergeSort_of_sorted
  exact List.pairwise_of_forall (by intro a b; simp)

/-! ## `super_dev/design/ux_guide.py` -/

/-- The `UXDomain(str, Enum)` class: its members. -/
inductive UXDomain : Type
  | ANIMATION | A11Y | PERFORMANCE | RESPONSIVE | FORMS
  | NAVIGATION | LOADING | ERROR | DARK_MODE | I18N
deriving DecidableEq, Repr

/-- The `value` of each `UXDomain` member, exactly as in the source. -/
def UXDomain.value : UXDomain → String
  | .ANIMATION => "Animation"
  | .A11Y => "A11y"
  | .PERFORMANCE => "Performance"
  | .RESPONSIVE => "Responsive"
  | .FORMS => "Forms"
  | .NAVIGATION => "Navigation"
  | .LOADING => "Loading"
  | .ERROR => "Error"
  | .DARK_MODE => "Dark Mode"
  | .I18N => "I18n"

/-- Python `UXDomain(v)`: by-value enum construction; `none` models the
`ValueError` raised for an unknown value. -/
def UXDomain.fromValue (v : String) : Option UXDomain :=
  if v == "Animation" then some .ANIMATION
  else if v == "A11y" then some .A11Y
  else if v == "Performance" then some .PERFORMANCE
  else if v == "Responsive" then some .RESPONSIVE
  else if v == "Forms" then some .FORMS
  else if v == "Navigation" then some .NAVIGATION
  else if v == "Loading" then some .LOADING
  else if v == "Error" then some .ERROR
  else if v == "Dark Mode" then some .DARK_MODE
  else if v == "I18n" then some .I18N
  else none

/-- Python attribute access `UXDomain.<name>` by member NAME (case-sensitive,
as in CPython); `none` models the `AttributeError` raised for a name that is
not a member.  The member names are `ANIMATION`, `A11Y`, ... as declared in
the class body. -/
def UXDomain.lookupMember (name : String) : Option UXDomain :=
  if name == "ANIMATION" then some .ANIMATION
  else if name == "A11Y" then some .A11Y
  else if name == "PERFORMANCE" then some .PERFORMANCE
  else if name == "RESPONSIVE" then some .RESPONSIVE
  else if name == "FORMS" then some .FORMS
  else if name == "NAVIGATION" then some .NAVIGATION
  else if name == "LOADING" then some .LOADING
  else if name == "ERROR" then some .ERROR
  else if name == "DARK_MODE" then some .DARK_MODE
  else if name == "I18N" then some .I18N
  else none

/-- The `UXGuideline` dataclass. -/
structure UXGuideline : Type where
  domain : UXDomain
  topic : String
  best_practice : String
  anti_pattern : String
  /-- The `example` field of the dataclass (`example` is reserved in Lean). -/
  example_ : String
  impact : String
  complexity : String
deriving DecidableEq, Repr

/-- The `UXRecommendation` dataclass. -/
structure UXRecommendation : Type where
  guideline : UXGuideline
  priority : String
  implementation_effort : String
  user_impact : String
  resources : List String
deriving DecidableEq, Repr

namespace UXGuideEngine

/-- `UXGuideEngine._get_default_guidelines`. -/
def get_default_guidelines : List UXGuideline :=
  [ { domain := .ANIMATION
      topic := "Loading"
      best_practice := "Use skeleton screens for content loading"
      anti_pattern := "Use spinners for all loading states"
      example_ := "Skeleton while profile data loads"
      impact := "Reduced perceived wait time"
      complexity := "medium" },
    { domain := .A11Y
      topic := "Color"
      best_practice := "Use 4.5:1 contrast ratio for text"
      anti_pattern := "Light gray text on white background"
      example_ := "Dark text on light background"
      impact := "Readable by all users"
      complexity := "low" },
    { domain := .PERFORMANCE
      topic := "Images"
      best_practice := "Use WebP format with fallbacks"
      anti_pattern := "Unoptimized 5MB PNGs"
      example_ := "WebP with JPEG fallback"
      impact := "Faster page load"
      complexity := "low" } ]

/-- Parsing one CSV row inside the loop of
`UXGuideEngine._load_guidelines`, in the evaluation order of the source:
`UXDomain(row["domain"])` first (KeyError, then ValueError), then the
remaining required columns. -/
def parse_guideline_row (row : Row) : Except PyError UXGuideline := do
  let domainStr ← rowReq row "domain"
  let domain ← match UXDomain.fromValue domainStr with
    | some d => Except.ok d
    | none => Except.error (.valueError domainStr)
  let topic ← rowReq row "topic"
  let best_practice ← rowReq row "best_practice"
  let anti_pattern ← rowReq row "anti_pattern"
  let example_ ← rowReq row "example"
  let impact ← rowReq row "impact"
  let complexity ← rowReq row "complexity"
  pure { domain, topic, best_practice, anti_pattern, example_, impact,
         complexity }

/-- The row loop of `UXGuideEngine._load_guidelines`: each row is parsed in a
`try`; on success the guideline is appended, on any exception a warning is
printed and the row is skipped. -/
def load_guideline_rows (rows : List Row) : List UXGuideline :=
  List.foldl (fun acc row =>
    match parse_guideline_row row with
    | .ok g => acc ++ [g]
    | .error _ => acc) [] rows

/-- `UXGuideEngine._determine_priority`.  Its first statement evaluates the
attribute `UXDomain.A11y`; the class declares the member as `A11Y`
(upper-case Y), so in CPython this raises `AttributeError` before any
comparison happens.  The embedding performs the same case-sensitive member
lookup. -/
def determine_priority (guideline : UXGuideline) : Except PyError String :=
  match UXDomain.lookupMember "A11y" with
  | none => .error (.attributeError "A11y")
  | some a11y =>
    if guideline.domain == a11y then .ok "critical"
    else if guideline.domain == UXDomain.PERFORMANCE then .ok "high"
    else if guideline.complexity == "low" then .ok "high"
    else .ok "medium"

/-- `UXGuideEngine._determine_user_impact`. -/
def determine_user_impact (guideline : UXGuideline) : String :=
  let impact_lower := pyLower guideline.impact
  if ["all users", "everyone", "critical", "essential"].any
      (fun w => pyIn w impact_lower) then "high"
  else if ["some users", "improved", "better"].any
      (fun w => pyIn w impact_lower) then "medium"
  else "low"

/-- `UXGuideEngine._get_resources`: static per-domain resource table,
empty list for domains without an entry. -/
def get_resources (guideline : UXGuideline) : List String :=
  match guideline.domain with
  | .A11Y =>
      [ "WCAG 2.1 Guidelines: https://www.w3.org/WAI/WCAG21/quickref/",
        "WebAIM Contrast Checker: https://webaim.org/resources/contrastchecker/" ]
  | .PERFORMANCE =>
      [ "Web.dev Performance: https://web.dev/performance/",
        "Google Lighthouse: https://developers.google.com/web/tools/lighthouse" ]
  | .RESPONSIVE =>
      [ "MDN Responsive Design: https://developer.mozilla.org/en-US/docs/Learn/CSS/CSS_layout/Responsive_Design" ]
  | .ANIMATION =>
      [ "Motion Design Guidelines: https://material.io/design/motion" ]
  | _ => []

/-- The additive score computed in the loop of `UXGuideEngine.search`:
topic +10, best practice +8, anti pattern +8, and +3 for every word of the
query found in the impact description.  `query_lower` is the already
lower-cased query. -/
def uxScore (query_lower : String) (g : UXGuideline) : Nat :=
  (if pyIn query_lower (pyLower g.topic) then 10 else 0)
  + (if pyIn query_lower (pyLower g.best_practice) then 8 else 0)
  + (if pyIn query_lower (pyLower g.anti_pattern) then 8 else 0)
  + 3 * ((pyWords query_lower).filter
      (fun w => pyIn w (pyLower g.impact))).length

/-- The tuple appended to `scored_guidelines` for a matched guideline. -/
structure ScoredGuideline : Type where
  guideline : UXGuideline
  score : Nat
  priority : String
  effort : String
  user_impact : String
deriving DecidableEq, Repr

/-- The guideline loop of `UXGuideEngine.search`: domain filter, scoring, and
— for every guideline with positive score — the priority computation, whose
exception propagates out of `search`. -/
def searchLoop (query_lower : String) (domain : Option String) :
    List UXGuideline → List ScoredGuideline →
      Except PyError (List ScoredGuideline)
  | [], acc => .ok acc
  | g :: gs, acc =>
    if pyTruthyOpt domain
        && (pyLower g.domain.value != pyLower ((domain).getD "")) then
      searchLoop query_lower domain gs acc
    else
      let score := uxScore query_lower g
      if 0 < score then
        match determine_priority g with
        | .error e => .error e
        | .ok priority =>
          searchLoop query_lower domain gs (acc ++
            [{ guideline := g, score, priority, effort := g.complexity,
               user_impact := determine_user_impact g }])
      else searchLoop query_lower domain gs acc

/-- `UXGuideEngine.search`: score and filter, sort by descending score
(stable), truncate to `max_results`, and build the recommendation list. -/
def search (guidelines : List UXGuideline) (query : String)
    (domain : Option String) (max_results : Nat) :
    Except PyError (List UXRecommendation) := do
  let scored ← searchLoop (pyLower query) domain guidelines []
  let sorted := pySortDescBy ScoredGuideline.score scored
  pure ((sorted.take max_results).map (fun x =>
    { guideline := x.guideline, priority := x.priority,
      implementation_effort := x.effort, user_impact := x.user_impact,
      resources := get_resources x.guideline }))

end UXGuideEngine

namespace UXGuideEngine

/-- The filter loop of `UXGuideEngine.get_quick_wins`: keep guidelines of
low complexity whose derived user impact is `"high"` or `"medium"`, each
wrapped as a recommendation with priority `"high"` and effort `"low"`. -/
def quick_win_of (g : UXGuideline) : Option UXRecommendation :=
  if g.complexity == "low" then
    let user_impact := determine_user_impact g
    if user_impact == "high" || user_impact == "medium" then
      some { guideline := g, priority := "high",
             implementation_effort := "low", user_impact,
             resources := get_resources g }
    else none
  else none

/-- The eligible quick wins, in store order (the first loop of
`get_quick_wins`). -/
def quick_wins_list (guidelines : List UXGuideline) : List UXRecommendation :=
  List.foldl (fun acc g =>
    match quick_win_of g with
    | some r => acc ++ [r]
    | none => acc) [] guidelines

/-- One step of building `domain_groups` (a `defaultdict(list)` keyed by the
guideline's domain, keys in first-occurrence order). -/
def addToGroups (groups : List (UXDomain × List UXRecommendation))
    (r : UXRecommendation) : List (UXDomain × List UXRecommendation) :=
  if groups.any (fun p => p.1 == r.guideline.domain) then
    groups.map (fun p =>
      if p.1 == r.guideline.domain then (p.1, p.2 ++ [r]) else p)
  else groups ++ [(r.guideline.domain, [r])]

/-- `domain_groups` of `get_quick_wins`. -/
def domain_groups (guidelines : List UXGuideline) :
    List (UXDomain × List UXRecommendation) :=
  List.foldl addToGroups [] (quick_wins_list guidelines)

/-- Python `domain_groups[d]` (a `defaultdict`: missing key reads as `[]`). -/
def lookupGroup (groups : List (UXDomain × List UXRecommendation))
    (d : UXDomain) : List UXRecommendation :=
  match groups.find? (fun p => p.1 == d) with
  | some p => p.2
  | none => []

/-- `domain_groups[d].pop(0)`: remove the head of the group keyed `d`. -/
def popGroup (groups : List (UXDomain × List UXRecommendation))
    (d : UXDomain) : List (UXDomain × List UXRecommendation) :=
  groups.map (fun p => if p.1 == d then (p.1, p.2.tail) else p)

/-- The `while len(result) < max_results and domains:` loop of
`get_quick_wins`.  The first argument is the remaining capacity
`max_results - len(result)`; each pass pops the next domain and appends the
head of its group when the group is non-empty. -/
def drawLoop : Nat → List UXDomain →
    List (UXDomain × List UXRecommendation) → List UXRecommendation
  | 0, _, _ => []
  | _ + 1, [], _ => []
  | k + 1, d :: ds, groups =>
    match lookupGroup groups d with
    | [] => drawLoop (k + 1) ds groups
    | r :: _ => r :: drawLoop k ds (popGroup groups d)

/-- `UXGuideEngine.get_quick_wins`.  `random.shuffle(domains)` is modelled by
the explicit parameter `shuffled`, a permutation of the group keys (the
theorems quantify over all such permutations). -/
def get_quick_wins (guidelines : List UXGuideline)
    (shuffled : List UXDomain) (max_results : Nat) : List UXRecommendation :=
  drawLoop max_results shuffled (domain_groups guidelines)

/-- Appending a checklist line to the insertion-ordered dict of
`get_checklist`. -/
def checklistAdd (checklist : List (String × List String))
    (domain : String) (line : String) : List (String × List String) :=
  if checklist.any (fun p => p.1 == domain) then
    checklist.map (fun p => if p.1 == domain then (p.1, p.2 ++ [line]) else p)
  else checklist ++ [(domain, [line])]

/-- `UXGuideEngine.get_checklist`: best-practice lines grouped by domain.
Note Python's truthiness: an empty `domains` list disables the filter. -/
def get_checklist (guidelines : List UXGuideline)
    (domains : Option (List String)) : List (String × List String) :=
  List.foldl (fun checklist g =>
    let domain := g.domain.value
    if (match domains with
        | none => false
        | some ds => ds != []) && !((domains.getD []).contains domain) then
      checklist
    else checklistAdd checklist domain ("[ ] " ++ g.best_practice)) [] guidelines

end UXGuideEngine

/-! ## `super_dev/design/landing.py` -/

/-- The `LandingCategory(str, Enum)` members. -/
inductive LandingCategory : Type
  | CLASSIC | VIDEO | PRICING | PRODUCT | SOCIAL | COMPARISON | FAQ
  | LAYOUT | MINIMAL | CONVERSION | INTERACTIVE | NARRATIVE | DATA
  | TRUST | THEME
deriving DecidableEq, Repr

/-- The `value` of each `LandingCategory` member. -/
def LandingCategory.value : LandingCategory → String
  | .CLASSIC => "classic"
  | .VIDEO => "video"
  | .PRICING => "pricing"
  | .PRODUCT => "product"
  | .SOCIAL => "social"
  | .COMPARISON => "comparison"
  | .FAQ => "faq"
  | .LAYOUT => "layout"
  | .MINIMAL => "minimal"
  | .CONVERSION => "conversion"
  | .INTERACTIVE => "interactive"
  | .NARRATIVE => "narrative"
  | .DATA => "data"
  | .TRUST => "trust"
  | .THEME => "theme"

/-- Python `LandingCategory(v)`: by-value construction, `none` for the
`ValueError` on an unknown value. -/
def LandingCategory.fromValue (v : String) : Option LandingCategory :=
  ([LandingCategory.CLASSIC, .VIDEO, .PRICING, .PRODUCT, .SOCIAL,
    .COMPARISON, .FAQ, .LAYOUT, .MINIMAL, .CONVERSION, .INTERACTIVE,
    .NARRATIVE, .DATA, .TRUST, .THEME]).find? (fun c => c.value == v)

/-- The `LandingSection` dataclass. -/
structure LandingSection : Type where
  name : String
  type : String
  content_hint : String
  required : Bool := false
  order : Nat := 0
deriving DecidableEq, Repr

/-- The `CTAStrategy` dataclass. -/
structure CTAStrategy : Type where
  primary_placement : String
  secondary_placements : List String := []
  style : String := "button"
  urgency : String := "medium"
  text_variations : List String := []
deriving DecidableEq, Repr

/-- The `LandingPattern` dataclass. -/
structure LandingPattern : Type where
  name : String
  category : LandingCategory
  description : String
  sections : List LandingSection
  cta_strategy : CTAStrategy
  best_for : List String
  conversion_tips : List String
  complexity : String
  keywords : List String
deriving DecidableEq, Repr

namespace LandingPatternGenerator

/-- The ordered `type_map` of `_infer_section_type` (Python dicts preserve
insertion order, and the first matching entry wins). -/
def type_map : List (String × List String) :=
  [ ("hero", ["hero", "video_hero", "split_hero", "dark_hero", "single_cta"]),
    ("features", ["features", "zigzag_features", "dark_features", "feature"]),
    ("pricing", ["pricing_plans", "pricing", "plans"]),
    ("testimonials", ["testimonials", "social_proof", "reviews"]),
    ("comparison", ["comparison_table", "comparison"]),
    ("faq", ["faq", "faq_categories", "questions"]),
    ("demo", ["interactive_demo", "video_hero", "product_gallery"]),
    ("stats", ["stats_dashboard", "trust_badges", "stats"]),
    ("cta", ["cta", "contact_cta", "repeating_ctas"]),
    ("story", ["story_sections", "timeline", "narrative"]) ]

/-- `LandingPatternGenerator._infer_section_type`. -/
def infer_section_type (name : String) : String :=
  let name_lower := pyLower name
  match type_map.find? (fun entry =>
      entry.2.any (fun pat => pyIn pat name_lower)) with
  | some entry => entry.1
  | none => "content"

/-- `LandingPatternGenerator._get_content_hint`. -/
def get_content_hint (section_type : String) : String :=
  let hints : List (String × String) :=
    [ ("hero", "Compelling headline, subheadline, primary CTA, hero image/video"),
      ("features", "3-6 key features with icons, titles, descriptions"),
      ("pricing", "2-4 pricing tiers, highlight recommended plan"),
      ("testimonials", "3-5 customer quotes with photos and titles"),
      ("comparison", "Side-by-side feature comparison table"),
      ("faq", "5-10 common questions with clear answers"),
      ("demo", "Interactive or video demonstration"),
      ("stats", "Key metrics, social proof numbers"),
      ("cta", "Clear call-to-action with benefit statement"),
      ("content", "Relevant content for this section") ]
  (List.lookup section_type hints).getD "Content for this section"

/-- The ordered `base_ctas` table of `_get_cta_variations`. -/
def base_ctas : List (String × List String) :=
  [ ("SaaS", ["Start Free Trial", "Get Started", "Request Demo", "Start Now"]),
    ("E-commerce", ["Shop Now", "Browse Collection", "Add to Cart", "Buy Now"]),
    ("Marketing", ["Learn More", "Get Started", "Contact Us", "Sign Up"]),
    ("B2B", ["Request Demo", "Contact Sales", "Enterprise Plans", "Book a Call"]),
    ("Freemium", ["Start Free", "Upgrade Now", "Get Pro", "Unlock Features"]),
    ("Mobile", ["Download App", "Get on iOS", "Get on Android", "Install Now"]),
    ("Default", ["Get Started", "Learn More", "Contact Us", "Sign Up"]) ]

/-- `LandingPatternGenerator._get_cta_variations`: first table entry whose
lower-cased key occurs in the lower-cased `best_for` string; otherwise the
`"Default"` list. -/
def get_cta_variations (best_for : String) : List String :=
  match base_ctas.find? (fun entry =>
      pyIn (pyLower entry.1) (pyLower best_for)) with
  | some entry => entry.2
  | none => ["Get Started", "Learn More", "Contact Us", "Sign Up"]

/-- The body of `LandingPatternGenerator._parse_pattern` (everything inside
the `try`), with the possible exceptions surfaced in source evaluation
order: `row["name"]` (KeyError), `LandingCategory(row.get("category",
"classic"))` (ValueError), `row["description"]` (KeyError). -/
def parse_pattern_ex (row : Row) : Except PyError LandingPattern := do
  let sections_raw := rowGetD row "sections" ""
  let section_names := (pySplitChar ',' sections_raw).map pyStrip
  let sections := (section_names.enum).map (fun ni =>
    let section_type := infer_section_type ni.2
    { name := pyTitle (pyReplaceChar '_' ' ' ni.2)
      type := section_type
      content_hint := get_content_hint section_type
      required := ni.1 == 0
      order := ni.1 : LandingSection })
  let cta_strategy : CTAStrategy :=
    { primary_placement := (section_names.head?).getD "hero"
      style := "button"
      urgency := "medium"
      text_variations := get_cta_variations (rowGetD row "best_for" "") }
  let name ← rowReq row "name"
  let category ← match LandingCategory.fromValue (rowGetD row "category" "classic") with
    | some c => Except.ok c
    | none => Except.error (.valueError (rowGetD row "category" "classic"))
  let description ← rowReq row "description"
  pure { name, category, description, sections, cta_strategy,
         best_for := pySplitChar ',' (rowGetD row "best_for" "")
         conversion_tips :=
           match rowGet row "conversion_tips" with
           | some s => if pyTruthy s then pySplitChar ',' s else []
           | none => []
         complexity := rowGetD row "complexity" "medium"
         keywords :=
           match rowGet row "keywords" with
           | some s => if pyTruthy s then pySplitChar ',' s else []
           | none => [] }

/-- `LandingPatternGenerator._parse_pattern`: the `try`/`except` returns
`None` when any exception was raised. -/
def parse_pattern (row : Row) : Option LandingPattern :=
  (parse_pattern_ex row).toOption

/-- The row loop of `LandingPatternGenerator._load_patterns`: parse each row,
append the pattern when parsing succeeded. -/
def load_pattern_rows (rows : List Row) : List LandingPattern :=
  List.foldl (fun acc row =>
    match parse_pattern row with
    | some p => acc ++ [p]
    | none => acc) [] rows

/-- The additive score of the loop in `LandingPatternGenerator.search`:
name +10, category value +5, +3 per matching keyword, +2 per matching
best-for entry.  `query_lower` is the already lower-cased query; note the
source compares the query against `pattern.category.value` without lowering
it (the enum values are already lower case). -/
def landingScore (query_lower : String) (p : LandingPattern) : Nat :=
  (if pyIn query_lower (pyLower p.name) then 10 else 0)
  + (if pyIn query_lower p.category.value then 5 else 0)
  + 3 * (p.keywords.filter (fun k => pyIn query_lower (pyLower k))).length
  + 2 * (p.best_for.filter (fun u => pyIn query_lower (pyLower u))).length

/-- `LandingPatternGenerator.search`: keep patterns with positive score,
sort by descending score (stable), truncate to `max_results`. -/
def search (patterns : List LandingPattern) (query : String)
    (max_results : Nat) : List LandingPattern :=
  let query_lower := pyLower query
  let scored_patterns := List.foldl (fun acc p =>
    let score := landingScore query_lower p
    if 0 < score then acc ++ [(p, score)] else acc) [] patterns
  ((pySortDescBy Prod.snd scored_patterns).take max_results).map Prod.fst

/-- `LandingPatternGenerator.get_pattern`: first pattern whose name matches
case-insensitively, else `None`. -/
def get_pattern : List LandingPattern → String → Option LandingPattern
  | [], _ => none
  | p :: ps, name =>
    if pyLower p.name == pyLower name then some p else get_pattern ps name

/-- Python `a or b` on optional patterns: a dataclass instance is always
truthy, so the left operand wins unless it is `None`. -/
def pyOrOpt {α : Type} (a b : Option α) : Option α :=
  match a with
  | some x => some x
  | none => b

/-- `LandingPatternGenerator.recommend`.  The goal groups are checked by
LIST MEMBERSHIP (`goal_lower in [...]`), i.e. string equality against the
listed words; only the `"pricing"` branch tests substring containment. -/
def recommend (patterns : List LandingPattern) (product_type goal audience :
    String) : Option LandingPattern :=
  let goal_lower := pyLower goal
  let product_lower := pyLower product_type
  let _ := audience
  if goal_lower == "signup" || goal_lower == "register"
      || goal_lower == "newsletter" then
    pyOrOpt (get_pattern patterns "Minimal Single CTA")
      (get_pattern patterns "Hero + Features")
  else if goal_lower == "purchase" || goal_lower == "buy"
      || goal_lower == "order" then
    pyOrOpt (get_pattern patterns "Product Showcase")
      (get_pattern patterns "Hero + Features")
  else if goal_lower == "demo" || goal_lower == "trial" then
    pyOrOpt (get_pattern patterns "Interactive Demo")
      (get_pattern patterns "Video-First")
  else if pyIn "pricing" goal_lower then
    get_pattern patterns "Pricing Preview"
  else if product_lower == "b2b" || product_lower == "enterprise"
      || product_lower == "saas" then
    pyOrOpt (get_pattern patterns "Comparison Table")
      (get_pattern patterns "Trust Badges")
  else
    get_pattern patterns "Hero + Features"

/-- The section entries of `generate_structure`. -/
structure SectionView : Type where
  name : String
  type : String
  content_hint : String
  order : Nat
deriving DecidableEq, Repr

/-- The `cta_strategy.primary` entry of `generate_structure`. -/
structure CTAPrimaryView : Type where
  placement : String
  style : String
  texts : List String
deriving DecidableEq, Repr

/-- A `cta_strategy.secondary` entry of `generate_structure`. -/
structure CTASecondaryView : Type where
  placement : String
  style : String
deriving DecidableEq, Repr

/-- The nested dictionary returned by `generate_structure`. -/
structure PageStructure : Type where
  pattern : String
  description : String
  sections : List SectionView
  cta_primary : CTAPrimaryView
  cta_secondary : List CTASecondaryView
  conversion_tips : List String
  complexity : String
deriving DecidableEq, Repr

/-- `LandingPatternGenerator.generate_structure`: a pure view of the chosen
pattern. -/
def generate_structure (pattern : LandingPattern) : PageStructure :=
  { pattern := pattern.name
    description := pattern.description
    sections := pattern.sections.map (fun s =>
      { name := s.name, type := s.type, content_hint := s.content_hint,
        order := s.order })
    cta_primary :=
      { placement := pattern.cta_strategy.primary_placement
        style := pattern.cta_strategy.style
        texts := pattern.cta_strategy.text_variations.take 3 }
    cta_secondary := pattern.cta_strategy.secondary_placements.map (fun pl =>
      { placement := pl, style := pattern.cta_strategy.style })
    conversion_tips := pattern.conversion_tips
    complexity := pattern.complexity }

end LandingPatternGenerator

/-! ## `super_dev/design/tech_stack.py` -/

/-- The `TechStack(str, Enum)` members. -/
inductive TechStack : Type
  | NEXTJS | REMIX | REACT | VUE | SVELTEKIT | ANGULAR | ASTRO
  | SOLIDJS | QWIK | SWIFTUI | REACT_NATIVE | FLUTTER
deriving DecidableEq, Repr

/-- The `value` of each `TechStack` member. -/
def TechStack.value : TechStack → String
  | .NEXTJS => "Next.js"
  | .REMIX => "Remix"
  | .REACT => "React"
  | .VUE => "Vue"
  | .SVELTEKIT => "SvelteKit"
  | .ANGULAR => "Angular"
  | .ASTRO => "Astro"
  | .SOLIDJS => "SolidJS"
  | .QWIK => "Qwik"
  | .SWIFTUI => "SwiftUI"
  | .REACT_NATIVE => "React Native"
  | .FLUTTER => "Flutter"

/-- Python `TechStack(v)`: by-value construction. -/
def TechStack.fromValue (v : String) : Option TechStack :=
  ([TechStack.NEXTJS, .REMIX, .REACT, .VUE, .SVELTEKIT, .ANGULAR, .ASTRO,
    .SOLIDJS, .QWIK, .SWIFTUI, .REACT_NATIVE, .FLUTTER]).find?
    (fun s => s.value == v)

/-- The `PracticeCategory(str, Enum)` members. -/
inductive PracticeCategory : Type
  | ARCHITECTURE | PERFORMANCE | STATE_MANAGEMENT | STYLING | TESTING
  | DEPLOYMENT | SECURITY | ACCESSIBILITY
deriving DecidableEq, Repr

/-- The `value` of each `PracticeCategory` member. -/
def PracticeCategory.value : PracticeCategory → String
  | .ARCHITECTURE => "architecture"
  | .PERFORMANCE => "performance"
  | .STATE_MANAGEMENT => "state_management"
  | .STYLING => "styling"
  | .TESTING => "testing"
  | .DEPLOYMENT => "deployment"
  | .SECURITY => "security"
  | .ACCESSIBILITY => "accessibility"

/-- Python `PracticeCategory(v)`: by-value construction. -/
def PracticeCategory.fromValue (v : String) : Option PracticeCategory :=
  ([PracticeCategory.ARCHITECTURE, .PERFORMANCE, .STATE_MANAGEMENT,
    .STYLING, .TESTING, .DEPLOYMENT, .SECURITY, .ACCESSIBILITY]).find?
    (fun c => c.value == v)

/-- The `TechBestPractice` dataclass. -/
structure TechBestPractice : Type where
  stack : TechStack
  category : PracticeCategory
  topic : String
  practice : String
  anti_pattern : String
  code_example : String
  benefits : String
  complexity : String
deriving DecidableEq, Repr

/-- The `TechPattern` dataclass. -/
structure TechPattern : Type where
  stack : TechStack
  name : String
  description : String
  use_case : String
  implementation : String
  pros : List String
  cons : List String
deriving DecidableEq, Repr

/-- The `PerformanceTip` dataclass. -/
structure PerformanceTip : Type where
  stack : TechStack
  topic : String
  technique : String
  impact : String
  effort : String
  description : String
  code_snippet : String
deriving DecidableEq, Repr

/-- The `StackRecommendation` dataclass. -/
structure StackRecommendation : Type where
  practice : TechBestPractice
  priority : String
  context : String
  alternatives : List String
  resources : List String
deriving DecidableEq, Repr

namespace TechStackEngine

/-- `TechStackEngine._get_default_practices` (brace characters of the code
examples written as `\x7b`/`\x7d`). -/
def get_default_practices : List TechBestPractice :=
  [ { stack := .NEXTJS
      category := .ARCHITECTURE
      topic := "Server Components"
      practice := "Use Server Components by default, Client Components only when needed"
      anti_pattern := "Mark all components with 'use client'"
      code_example := "// Server Component (default)\nexport default function Profile() \x7b\n  return <div>\x7buser.name\x7d</div>\n\x7d\n\n// Client Component\n'use client'\nexport function Button() \x7b return <button>Click</button> \x7d"
      benefits := "Reduced bundle size, improved performance, simpler data fetching"
      complexity := "low" },
    { stack := .REACT
      category := .PERFORMANCE
      topic := "Code Splitting"
      practice := "Use React.lazy and Suspense for route-based code splitting"
      anti_pattern := "Load entire application bundle upfront"
      code_example := "const Dashboard = React.lazy(() => import('./Dashboard'));\n\n<Suspense fallback=\x7b<Loading />\x7d>\n  <Dashboard />\n</Suspense>"
      benefits := "Faster initial load, better user experience"
      complexity := "medium" },
    { stack := .VUE
      category := .STATE_MANAGEMENT
      topic := "Composition API"
      practice := "Use Composition API with <script setup> syntax"
      anti_pattern := "Mix Options API and Composition API"
      code_example := "<script setup>\nimport \x7b ref, computed \x7d from 'vue'\nconst count = ref(0)\nconst doubled = computed(() => count.value * 2)\n</script>"
      benefits := "Better type inference, code organization, tree-shaking"
      complexity := "low" } ]

/-- `TechStackEngine._get_default_patterns` cannot produce a value: its second
`TechPattern(...)` call is written `pros[...[, cons[...]` — subscript
expressions in positional-argument position after keyword arguments, which is
the Python syntax error "positional argument follows keyword argument"
(tech_stack.py lines 245-246, where the first `TechPattern` correctly writes
`pros=[...]`).  In CPython the error is raised while the module is being
imported, so no `TechStackEngine` can ever be constructed; the embedding
surfaces the failure at the first use of the defective definition. -/
def get_default_patterns : Except PyError (List TechPattern) :=
  .error (.moduleLoadError
    "SyntaxError: positional argument follows keyword argument")

/-- `TechStackEngine._get_default_performance` (brace characters written as
`\x7b`/`\x7d`). -/
def get_default_performance : List PerformanceTip :=
  [ { stack := .NEXTJS
      topic := "Image Optimization"
      technique := "Use next/image for all images"
      impact := "high"
      effort := "low"
      description := "Automatic optimization, lazy loading, and responsive images"
      code_snippet := "import Image from 'next/image'\n\n<Image\n  src='/hero.jpg'\n  alt='Hero'\n  width=\x7b1200\x7d\n  height=\x7b600\x7d\n  priority\n/>" },
    { stack := .REACT
      topic := "Memoization"
      technique := "Use useMemo and useCallback sparingly"
      impact := "medium"
      effort := "medium"
      description := "Memoize expensive computations and callbacks"
      code_snippet := "const memoizedValue = useMemo(() => \x7b\n  return computeExpensiveValue(a, b)\n\x7d, [a, b])" } ]

/-- `TechStackEngine.__init__` via `_load_data` when none of the three CSV
files exists: every store falls back to its built-in defaults.  The
construction fails because `_get_default_patterns` does not compile (in
CPython the import itself already fails). -/
def construct_noFiles :
    Except PyError (List TechBestPractice × List TechPattern ×
      List PerformanceTip) := do
  let practices := get_default_practices
  let patterns ← get_default_patterns
  let performance := get_default_performance
  pure (practices, patterns, performance)

/-- Parsing one CSV row inside the loop of `_load_practices`, in source
evaluation order. -/
def parse_practice_row (row : Row) : Except PyError TechBestPractice := do
  let stackStr ← rowReq row "stack"
  let stack ← match TechStack.fromValue stackStr with
    | some s => Except.ok s
    | none => Except.error (.valueError stackStr)
  let categoryStr ← rowReq row "category"
  let category ← match PracticeCategory.fromValue categoryStr with
    | some c => Except.ok c
    | none => Except.error (.valueError categoryStr)
  let topic ← rowReq row "topic"
  let practice ← rowReq row "practice"
  let anti_pattern ← rowReq row "anti_pattern"
  let code_example ← rowReq row "code_example"
  let benefits ← rowReq row "benefits"
  let complexity ← rowReq row "complexity"
  pure { stack, category, topic, practice, anti_pattern, code_example,
         benefits, complexity }

/-- The row loop of `TechStackEngine._load_practices`: parse in a `try`,
append on success, warn and skip on any exception. -/
def load_practice_rows (rows : List Row) : List TechBestPractice :=
  List.foldl (fun acc row =>
    match parse_practice_row row with
    | .ok p => acc ++ [p]
    | .error _ => acc) [] rows

/-- The additive query score of `search_practices`: topic +10, practice +8,
benefits +5. -/
def practiceScore (query_lower : String) (p : TechBestPractice) : Nat :=
  (if pyIn query_lower (pyLower p.topic) then 10 else 0)
  + (if pyIn query_lower (pyLower p.practice) then 8 else 0)
  + (if pyIn query_lower (pyLower p.benefits) then 5 else 0)

/-- The filter predicate of the loop in `search_practices`: stack must match,
the optional category must match when truthy, and when a truthy query is
given the score must be positive.  (The scores are used only for this test —
`search_practices` never sorts by them.) -/
def practiceKeep (stack_lower : String) (query category : Option String)
    (p : TechBestPractice) : Bool :=
  (pyLower p.stack.value == stack_lower)
  && !(pyTruthyOpt category
       && (pyLower p.category.value != pyLower (category.getD "")))
  && (!(pyTruthyOpt query) || 0 < practiceScore (pyLower (query.getD "")) p)

/-- `TechStackEngine._determine_priority` (this one spells its enum members
correctly). -/
def determine_priority (practice : TechBestPractice) : String :=
  if practice.category == PracticeCategory.SECURITY then "critical"
  else if practice.category == PracticeCategory.PERFORMANCE then "high"
  else if practice.complexity == "low" then "high"
  else "medium"

/-- `TechStackEngine._get_context`: static per-category context strings. -/
def get_context (practice : TechBestPractice) : String :=
  match practice.category with
  | .ARCHITECTURE => "架构层面的最佳实践，影响整体代码组织"
  | .PERFORMANCE => "性能优化建议，提升用户体验"
  | .STATE_MANAGEMENT => "状态管理模式，确保数据流清晰"
  | .STYLING => "样式方案，保持视觉一致性"
  | .TESTING => "测试策略，确保代码质量"
  | .DEPLOYMENT => "部署方案，简化发布流程"
  | .SECURITY => "安全实践，保护应用和用户"
  | .ACCESSIBILITY => "无障碍性，确保所有用户可用"

/-- `TechStackEngine._get_alternatives`. -/
def get_alternatives (practice : TechBestPractice) : List String :=
  let _ := practice
  ["See documentation for alternatives"]

/-- `TechStackEngine._get_resources`: static per-stack resource lists. -/
def get_resources (practice : TechBestPractice) : List String :=
  match practice.stack with
  | .NEXTJS =>
      [ "Next.js Documentation: https://nextjs.org/docs",
        "Next.js Learn: https://nextjs.org/learn" ]
  | .REACT =>
      [ "React Documentation: https://react.dev",
        "React Patterns: https://reactpatterns.com" ]
  | .VUE =>
      [ "Vue Documentation: https://vuejs.org/guide/",
        "Vue Style Guide: https://vuejs.org/style-guide/" ]
  | .SVELTEKIT =>
      [ "SvelteKit Docs: https://kit.svelte.dev/docs",
        "Svelte Docs: https://svelte.dev/docs" ]
  | _ => []

/-- `TechStackEngine.search_practices`: filter (stack, optional category,
optional query with positive score), truncate to `max_results`, and wrap the
survivors as recommendations — IN STORE ORDER; the computed scores are
discarded and no sort happens. -/
def search_practices (practices : List TechBestPractice) (stack : String)
    (query : Option String) (category : Option String) (max_results : Nat) :
    List StackRecommendation :=
  let stack_lower := pyLower stack
  let filtered_practices := List.foldl (fun acc p =>
    if practiceKeep stack_lower query category p then acc ++ [p] else acc)
    [] practices
  (filtered_practices.take max_results).map (fun p =>
    { practice := p, priority := determine_priority p,
      context := get_context p, alternatives := get_alternatives p,
      resources := get_resources p })

/-- The `impact_order` dict of `get_performance_tips`:
`{"high": 0, "medium": 1, "low": 2}` read with default 3. -/
def impactOrder (s : String) : Nat :=
  if s == "high" then 0
  else if s == "medium" then 1
  else if s == "low" then 2
  else 3

/-- The filter predicate of the loop in `get_performance_tips`. -/
def tipKeep (stack_lower : String) (impact effort : Option String)
    (t : PerformanceTip) : Bool :=
  (pyLower t.stack.value == stack_lower)
  && !(pyTruthyOpt impact && (pyLower t.impact != pyLower (impact.getD "")))
  && !(pyTruthyOpt effort && (pyLower t.effort != pyLower (effort.getD "")))

/-- `TechStackEngine.get_performance_tips`.  The final
`tips.sort(key=lambda t: impact_order.get(tip.impact.lower(), 3))` closes
over the LOOP variable `tip` — after the loop this is the last element of
`self.performance_tips` — instead of the lambda's own parameter `t`, so the
key is the same number for every element and the stable sort leaves the
filtered list in store order.  (When the store is empty `tip` is unbound,
but the sort of the then-empty list never evaluates the key; the embedding
uses 0 in that unreachable case.) -/
def get_performance_tips (performance_tips : List PerformanceTip)
    (stack : String) (impact effort : Option String) : List PerformanceTip :=
  let stack_lower := pyLower stack
  let tips := List.foldl (fun acc t =>
    if tipKeep stack_lower impact effort t then acc ++ [t] else acc)
    [] performance_tips
  let constKey : Nat :=
    match performance_tips.getLast? with
    | some tip => impactOrder (pyLower tip.impact)
    | none => 0
  pySortAscBy (fun _ => constKey) tips

end TechStackEngine

/-! ## `super_dev/design/codegen.py` -/

/-- The `Framework(str, Enum)` members. -/
inductive Framework : Type
  | NEXTJS | REACT | VUE | SVELTE | HTML | TAILWIND
deriving DecidableEq, Repr

/-- The `value` of each `Framework` member. -/
def Framework.value : Framework → String
  | .NEXTJS => "nextjs"
  | .REACT => "react"
  | .VUE => "vue"
  | .SVELTE => "svelte"
  | .HTML => "html"
  | .TAILWIND => "tailwind"

/-- The `ComponentCategory(str, Enum)` members. -/
inductive ComponentCategory : Type
  | BUTTON | INPUT | CARD | MODAL | NAVIGATION | FORM | FEEDBACK
  | LAYOUT | TYPOGRAPHY | DATA_DISPLAY
deriving DecidableEq, Repr

/-- The `value` of each `ComponentCategory` member. -/
def ComponentCategory.value : ComponentCategory → String
  | .BUTTON => "button"
  | .INPUT => "input"
  | .CARD => "card"
  | .MODAL => "modal"
  | .NAVIGATION => "navigation"
  | .FORM => "form"
  | .FEEDBACK => "feedback"
  | .LAYOUT => "layout"
  | .TYPOGRAPHY => "typography"
  | .DATA_DISPLAY => "data_display"

/-- The `ComponentSnippet` dataclass (`props` is a string-keyed dict,
embedded as an association list). -/
structure ComponentSnippet : Type where
  name : String
  category : ComponentCategory
  framework : Framework
  code : String
  dependencies : List String
  props : List (String × String)
  preview : String
  description : String
deriving DecidableEq, Repr

namespace CodeGenerator

/-- The categorical filters of `search_components` (`framework`/`category`
arguments are truthiness-checked; the snippet's enum value is compared, not
lowered, against the lowered argument). -/
def snippetKeep (framework category : Option String)
    (s : ComponentSnippet) : Bool :=
  !(pyTruthyOpt framework
    && (s.framework.value != pyLower (framework.getD "")))
  && !(pyTruthyOpt category
       && (s.category.value != pyLower (category.getD "")))

/-- The additive score of `search_components`: name +10, description +5,
category value +3. -/
def snippetScore (query_lower : String) (s : ComponentSnippet) : Nat :=
  (if pyIn query_lower (pyLower s.name) then 10 else 0)
  + (if pyIn query_lower (pyLower s.description) then 5 else 0)
  + (if pyIn query_lower s.category.value then 3 else 0)

/-- `CodeGenerator.search_components`: filter, keep positive scores, sort by
descending score (stable) — and return ALL survivors: this method has no
`max_results` parameter and performs no truncation. -/
def search_components (snippets : List ComponentSnippet) (query : String)
    (framework category : Option String) : List ComponentSnippet :=
  let query_lower := pyLower query
  let results := List.foldl (fun acc s =>
    if snippetKeep framework category s then
      let score := snippetScore query_lower s
      if 0 < score then acc ++ [(s, score)] else acc
    else acc) [] snippets
  (pySortDescBy Prod.snd results).map Prod.fst

end CodeGenerator

/-! ## Engine states and the query-time operations as state transformers

None of the query-time methods assigns to `self.<store>` or calls a mutating
method on the stored lists (`get_quick_wins` pops from freshly built group
lists, `get_performance_tips` sorts the freshly built `tips` list), so each
method is embedded as a state transformer that reads the store and returns
it unchanged, which is exactly what the Python bodies do. -/

/-- The record store of a `LandingPatternGenerator` instance. -/
structure LandingState : Type where
  patterns : List LandingPattern
deriving DecidableEq, Repr

/-- The record stores of a `TechStackEngine` instance. -/
structure TechState : Type where
  practices : List TechBestPractice
  patterns : List TechPattern
  performance_tips : List PerformanceTip
deriving DecidableEq, Repr

/-- The record store of a `UXGuideEngine` instance. -/
structure UXState : Type where
  guidelines : List UXGuideline
deriving DecidableEq, Repr

/-- The record store of a `CodeGenerator` instance. -/
structure CodegenState : Type where
  snippets : List ComponentSnippet
deriving DecidableEq, Repr

/-- `LandingPatternGenerator.search` on the instance state. -/
def LandingPatternGenerator.search_st (st : LandingState) (query : String)
    (max_results : Nat) : List LandingPattern × LandingState :=
  (LandingPatternGenerator.search st.patterns query max_results, st)

/-- `LandingPatternGenerator.recommend` on the instance state. -/
def LandingPatternGenerator.recommend_st (st : LandingState)
    (product_type goal audience : String) :
    Option LandingPattern × LandingState :=
  (LandingPatternGenerator.recommend st.patterns product_type goal audience, st)

/-- `LandingPatternGenerator.generate_structure` on the instance state (the
method does not read the store at all). -/
def LandingPatternGenerator.generate_structure_st (st : LandingState)
    (pattern : LandingPattern) :
    LandingPatternGenerator.PageStructure × LandingState :=
  (LandingPatternGenerator.generate_structure pattern, st)

/-- `UXGuideEngine.search` on the instance state. -/
def UXGuideEngine.search_st (st : UXState) (query : String)
    (domain : Option String) (max_results : Nat) :
    Except PyError (List UXRecommendation) × UXState :=
  (UXGuideEngine.search st.guidelines query domain max_results, st)

/-- `UXGuideEngine.get_quick_wins` on the instance state. -/
def UXGuideEngine.get_quick_wins_st (st : UXState)
    (shuffled : List UXDomain) (max_results : Nat) :
    List UXRecommendation × UXState :=
  (UXGuideEngine.get_quick_wins st.guidelines shuffled max_results, st)

/-- `UXGuideEngine.get_checklist` on the instance state. -/
def UXGuideEngine.get_checklist_st (st : UXState)
    (domains : Option (List String)) :
    List (String × List String) × UXState :=
  (UXGuideEngine.get_checklist st.guidelines domains, st)

/-- `TechStackEngine.search_practices` on the instance state. -/
def TechStackEngine.search_practices_st (st : TechState) (stack : String)
    (query category : Option String) (max_results : Nat) :
    List StackRecommendation × TechState :=
  (TechStackEngine.search_practices st.practices stack query category
    max_results, st)

/-- `TechStackEngine.get_performance_tips` on the instance state. -/
def TechStackEngine.get_performance_tips_st (st : TechState) (stack : String)
    (impact effort : Option String) : List PerformanceTip × TechState :=
  (TechStackEngine.get_performance_tips st.performance_tips stack impact
    effort, st)

/-- `CodeGenerator.search_components` on the instance state. -/
def CodeGenerator.search_components_st (st : CodegenState) (query : String)
    (framework category : Option String) :
    List ComponentSnippet × CodegenState :=
  (CodeGenerator.search_components st.snippets query framework category, st)

/-! ## Characterizations of the search loops -/

theorem landing_scored_eq (q : String) :
    ∀ (patterns : List LandingPattern) (acc : List (LandingPattern × Nat)),
      List.foldl (fun acc p =>
          let score := LandingPatternGenerator.landingScore q p
          if 0 < score then acc ++ [(p, score)] else acc) acc patterns
        = acc ++ (patterns.filter
            (fun p => decide (0 < LandingPatternGenerator.landingScore q p))).map
            (fun p => (p, LandingPatternGenerator.landingScore q p)) := by
  intro patterns
  induction patterns with
  | nil => intro acc; simp
  | cons x xs ih =>
    intro acc
    by_cases h : 0 < LandingPatternGenerator.landingScore q x
    · simp [h, ih, List.filter_cons]
    · simp [h, ih, List.filter_cons]

/-- `LandingPatternGenerator.search` in closed form. -/
theorem landing_search_eq (patterns : List LandingPattern) (q : String)
    (m : Nat) :
    LandingPatternGenerator.search patterns q m
      = ((pySortDescBy Prod.snd ((patterns.filter (fun p =>
            decide (0 < LandingPatternGenerator.landingScore (pyLower q) p))).map
            (fun p => (p, LandingPatternGenerator.landingScore (pyLower q) p)))).take
          m).map Prod.fst := by
  simp only [LandingPatternGenerator.search]
  rw [landing_scored_eq]
  simp

theorem codegen_scored_eq (q : String) (fw cat : Option String) :
    ∀ (snippets : List ComponentSnippet)
      (acc : List (ComponentSnippet × Nat)),
      List.foldl (fun acc s =>
          if CodeGenerator.snippetKeep fw cat s then
            let score := CodeGenerator.snippetScore q s
            if 0 < score then acc ++ [(s, score)] else acc
          else acc) acc snippets
        = acc ++ (snippets.filter (fun s =>
            CodeGenerator.snippetKeep fw cat s
              && decide (0 < CodeGenerator.snippetScore q s))).map
            (fun s => (s, CodeGenerator.snippetScore q s)) := by
  intro snippets
  induction snippets with
  | nil => intro acc; simp
  | cons x xs ih =>
    intro acc
    by_cases hk : CodeGenerator.snippetKeep fw cat x
    · by_cases hs : 0 < CodeGenerator.snippetScore q x
      · simp [hk, hs, ih, List.filter_cons]
      · simp [hk, hs, ih, List.filter_cons]
    · simp [hk, ih, List.filter_cons]

/-- `CodeGenerator.search_components` in closed form. -/
theorem codegen_search_eq (snippets : List ComponentSnippet) (q : String)
    (fw cat : Option String) :
    CodeGenerator.search_components snippets q fw cat
      = (pySortDescBy Prod.snd ((snippets.filter (fun s =>
          CodeGenerator.snippetKeep fw cat s
            && decide (0 < CodeGenerator.snippetScore (pyLower q) s))).map
          (fun s => (s, CodeGenerator.snippetScore (pyLower q) s)))).map
          Prod.fst := by
  simp only [CodeGenerator.search_components]
  rw [codegen_scored_eq]
  simp

theorem practices_filtered_eq (sl : String) (q c : Option String) :
    ∀ (practices : List TechBestPractice) (acc : List TechBestPractice),
      List.foldl (fun acc p =>
          if TechStackEngine.practiceKeep sl q c p then acc ++ [p] else acc)
        acc practices
        = acc ++ practices.filter (TechStackEngine.practiceKeep sl q c) := by
  intro practices
  induction practices with
  | nil => intro acc; simp
  | cons x xs ih =>
    intro acc
    by_cases h : TechStackEngine.practiceKeep sl q c x
    · simp [h, ih, List.filter_cons]
    · simp [h, ih, List.filter_cons]

/-- `TechStackEngine.search_practices` in closed form: the filtered
practices, truncated, wrapped — in store order. -/
theorem search_practices_eq (practices : List TechBestPractice)
    (stack : String) (q c : Option String) (m : Nat) :
    TechStackEngine.search_practices practices stack q c m
      = ((practices.filter
            (TechStackEngine.practiceKeep (pyLower stack) q c)).take m).map
          (fun p => StackRecommendation.mk p
            (TechStackEngine.determine_priority p)
            (TechStackEngine.get_context p)
            (TechStackEngine.get_alternatives p)
            (TechStackEngine.get_resources p)) := by
  simp only [TechStackEngine.search_practices]
  rw [practices_filtered_eq]
  simp

theorem tips_filtered_eq (sl : String) (i e : Option String) :
    ∀ (store : List PerformanceTip) (acc : List PerformanceTip),
      List.foldl (fun acc t =>
          if TechStackEngine.tipKeep sl i e t then acc ++ [t] else acc)
        acc store
        = acc ++ store.filter (TechStackEngine.tipKeep sl i e) := by
  intro store
  induction store with
  | nil => intro acc; simp
  | cons x xs ih =>
    intro acc
    by_cases h : TechStackEngine.tipKeep sl i e x
    · simp [h, ih, List.filter_cons]
    · simp [h, ih, List.filter_cons]

theorem quick_wins_foldl_aux :
    ∀ (gs : List UXGuideline) (acc : List UXRecommendation),
      List.foldl (fun acc g =>
          match UXGuideEngine.quick_win_of g with
          | some r => acc ++ [r]
          | none => acc) acc gs
        = acc ++ gs.filterMap UXGuideEngine.quick_win_of := by
  intro gs
  induction gs with
  | nil => intro acc; simp
  | cons x xs ih =>
    intro acc
    cases h : UXGuideEngine.quick_win_of x <;> simp [h, ih]

/-- The eligible quick wins are the `filterMap` of the per-guideline test. -/
theorem quick_wins_list_eq (guidelines : List UXGuideline) :
    UXGuideEngine.quick_wins_list guidelines
      = guidelines.filterMap UXGuideEngine.quick_win_of := by
  unfold UXGuideEngine.quick_wins_list
  rw [quick_wins_foldl_aux]
  simp

theorem load_guideline_rows_aux :
    ∀ (rows : List Row) (acc : List UXGuideline),
      List.foldl (fun acc row =>
          match UXGuideEngine.parse_guideline_row row with
          | .ok g => acc ++ [g]
          | .error _ => acc) acc rows
        = acc ++ rows.filterMap
            (fun r => (UXGuideEngine.parse_guideline_row r).toOption) := by
  intro rows
  induction rows with
  | nil => intro acc; simp
  | cons x xs ih =>
    intro acc
    cases h : UXGuideEngine.parse_guideline_row x <;>
      simp [h, ih, Except.toOption]

/-- The UX guideline loader keeps exactly the rows that parse. -/
theorem load_guideline_rows_eq (rows : List Row) :
    UXGuideEngine.load_guideline_rows rows
      = rows.filterMap
          (fun r => (UXGuideEngine.parse_guideline_row r).toOption) := by
  unfold UXGuideEngine.load_guideline_rows
  rw [load_guideline_rows_aux]
  simp

theorem load_practice_rows_aux :
    ∀ (rows : List Row) (acc : List TechBestPractice),
      List.foldl (fun acc row =>
          match TechStackEngine.parse_practice_row row with
          | .ok p => acc ++ [p]
          | .error _ => acc) acc rows
        = acc ++ rows.filterMap
            (fun r => (TechStackEngine.parse_practice_row r).toOption) := by
  intro rows
  induction rows with
  | nil => intro acc; simp
  | cons x xs ih =>
    intro acc
    cases h : TechStackEngine.parse_practice_row x <;>
      simp [h, ih, Except.toOption]

/-- The tech best-practice loader keeps exactly the rows that parse. -/
theorem load_practice_rows_eq (rows : List Row) :
    TechStackEngine.load_practice_rows rows
      = rows.filterMap
          (fun r => (TechStackEngine.parse_practice_row r).toOption) := by
  unfold TechStackEngine.load_practice_rows
  rw [load_practice_rows_aux]
  simp

theorem load_pattern_rows_aux :
    ∀ (rows : List Row) (acc : List LandingPattern),
      List.foldl (fun acc row =>
          match LandingPatternGenerator.parse_pattern row with
          | some p => acc ++ [p]
          | none => acc) acc rows
        = acc ++ rows.filterMap LandingPatternGenerator.parse_pattern := by
  intro rows
  induction rows with
  | nil => intro acc; simp
  | cons x xs ih =>
    intro acc
    cases h : LandingPatternGenerator.parse_pattern x <;> simp [h, ih]

/-- The landing pattern loader keeps exactly the rows that parse. -/
theorem load_pattern_rows_eq (rows : List Row) :
    LandingPatternGenerator.load_pattern_rows rows
      = rows.filterMap LandingPatternGenerator.parse_pattern := by
  unfold LandingPatternGenerator.load_pattern_rows
  rw [load_pattern_rows_aux]
  simp

/-! ## Lemmas about `UXGuideEngine.search` -/

/-- `_determine_priority` unconditionally raises: its first statement reads
the attribute `UXDomain.A11y`, which is not a member (the member is `A11Y`). -/
theorem determine_priority_raises (g : UXGuideline) :
    UXGuideEngine.determine_priority g = .error (.attributeError "A11y") := rfl

/-- If the search loop returns normally, it appended nothing: every matched
guideline routes through `_determine_priority`, which raises. -/
theorem searchLoop_ok (ql : String) (d : Option String) :
    ∀ (gs : List UXGuideline) (acc res : List UXGuideEngine.ScoredGuideline),
      UXGuideEngine.searchLoop ql d gs acc = .ok res → res = acc := by
  intro gs
  induction gs with
  | nil =>
    intro acc res h
    simpa [UXGuideEngine.searchLoop] using h.symm
  | cons g gs ih =>
    intro acc res h
    rw [UXGuideEngine.searchLoop] at h
    by_cases hf : (pyTruthyOpt d
        && (pyLower g.domain.value != pyLower ((d).getD ""))) = true
    · rw [if_pos hf] at h
      exact ih acc res h
    · rw [if_neg hf] at h
      by_cases hs : 0 < UXGuideEngine.uxScore ql g
      · rw [if_pos hs, determine_priority_raises] at h
        exact absurd h (by simp)
      · rw [if_neg hs] at h
        exact ih acc res h

/-- Whenever `UXGuideEngine.search` returns instead of raising, it returns
the empty recommendation list. -/
theorem ux_search_ok_nil (gs : List UXGuideline) (q : String)
    (d : Option String) (m : Nat) (res : List UXRecommendation)
    (h : UXGuideEngine.search gs q d m = .ok res) : res = [] := by
  unfold UXGuideEngine.search at h
  cases hl : UXGuideEngine.searchLoop (pyLower q) d gs [] with
  | error e => rw [hl] at h; exact absurd h (by simp [Except.bind])
  | ok scored =>
    have hnil := searchLoop_ok (pyLower q) d gs [] scored hl
    subst hnil
    rw [hl] at h
    simp [Except.bind, pySortDescBy] at h
    exact h

/-! ## Claim C1 -/

/-- C1: the claim reads "for every guideline matched by `UXGuideEngine.search`
(score > 0), the returned `UXRecommendation`'s priority is computed by the
fixed rule table ... in particular search never fails to produce this
priority for a matched guideline."  The code cannot do this:
`_determine_priority` begins with `if guideline.domain == UXDomain.A11y`,
and the enum member is spelled `A11Y`, so the attribute lookup raises
`AttributeError` for EVERY matched guideline and `search` propagates it.
(The comment above the line, "accessibility is usually critical priority",
shows the rule table is the intent.)  This theorem evaluates the failing
input: searching the default store for "color" matches the A11y guideline
(topic score 10) and raises instead of producing a priority. -/
theorem C1_ux_search_raises_attributeError :
    UXGuideEngine.search UXGuideEngine.get_default_guidelines "color" none 5
      = .error (.attributeError "A11y") := by
  rfl

/-! ## Claim C2 -/

/-- C2: the claim reads "for every engine, constructing it with no data file
present yields a non-empty store of built-in default records ... and this
fallback construction never raises an error; in particular TechStackEngine
built without tech_patterns.csv yields the non-empty default pattern list."
The code cannot do this: `_get_default_patterns` (tech_stack.py lines
245-246) passes `pros[...]` and `cons[...]` — missing `=` — which is the
Python SyntaxError "positional argument follows keyword argument", raised
already when the module is imported, so constructing a `TechStackEngine`
with no data files fails instead of producing the default pattern list. -/
theorem C2_tech_construct_noFiles_fails :
    TechStackEngine.construct_noFiles
      = .error (.moduleLoadError
          "SyntaxError: positional argument follows keyword argument") := by
  rfl

/-! ## Claim C5 -/

/-- C5: for every stack name and optional impact/effort filters,
`TechStackEngine.get_performance_tips` returns the tips that pass the
filters in their original store order: the final sort's key closes over the
enclosing loop variable `tip` rather than the lambda parameter `t`, so the
key is constant and the stable sort never reorders; in particular the result
is not ordered high-before-medium-before-low by impact unless the store
already is. -/
theorem C5_get_performance_tips_store_order
    (performance_tips : List PerformanceTip) (stack : String)
    (impact effort : Option String) :
    TechStackEngine.get_performance_tips performance_tips stack impact effort
      = performance_tips.filter
          (TechStackEngine.tipKeep (pyLower stack) impact effort) := by
  simp only [TechStackEngine.get_performance_tips]
  rw [tips_filtered_eq]
  rw [pySortAscBy_const]
  simp

/-! ## Claim C8 -/

/-- C8: for every input file, a row whose enum field has an unknown value or
whose required column is missing is skipped (the parse failure is caught,
only a warning printed), all remaining rows still load, and no partial-load
failure reaches the caller: each loader is total and its store is exactly
the `filterMap` of the successful row parses; dropping any row whose parse
fails leaves the loaded store unchanged. -/
theorem C8_bad_rows_skipped :
    (∀ rows : List Row,
      UXGuideEngine.load_guideline_rows rows
        = rows.filterMap
            (fun r => (UXGuideEngine.parse_guideline_row r).toOption))
    ∧ (∀ rows : List Row,
      TechStackEngine.load_practice_rows rows
        = rows.filterMap
            (fun r => (TechStackEngine.parse_practice_row r).toOption))
    ∧ (∀ rows : List Row,
      LandingPatternGenerator.load_pattern_rows rows
        = rows.filterMap LandingPatternGenerator.parse_pattern)
    ∧ (∀ (rows1 rows2 : List Row) (row : Row),
      (UXGuideEngine.parse_guideline_row row).toOption = none →
        UXGuideEngine.load_guideline_rows (rows1 ++ row :: rows2)
          = UXGuideEngine.load_guideline_rows (rows1 ++ rows2)) := by
  refine ⟨load_guideline_rows_eq, load_practice_rows_eq,
    load_pattern_rows_eq, ?_⟩
  intro rows1 rows2 row hbad
  rw [load_guideline_rows_eq, load_guideline_rows_eq]
  simp [List.filterMap_append, hbad]

/-- A CSV row whose `domain` cell is not a `UXDomain` value. -/
def uxBadRow : Row :=
  [("domain", "Bogus"), ("topic", "T"), ("best_practice", "B"),
   ("anti_pattern", "A"), ("example", "E"), ("impact", "I"),
   ("complexity", "low")]

/-- A well-formed CSV row for a UX guideline. -/
def uxGoodRow : Row :=
  [("domain", "Forms"), ("topic", "Labels"), ("best_practice", "B"),
   ("anti_pattern", "A"), ("example", "E"), ("impact", "I"),
   ("complexity", "low")]

/-- Witness for C8 at a concrete input: the row with unknown enum value
`"Bogus"` fails to parse, and loading a file that contains it yields the same
store as the file without it. -/
theorem C8_witness :
    (UXGuideEngine.parse_guideline_row uxBadRow).toOption = none
    ∧ UXGuideEngine.load_guideline_rows ([uxGoodRow] ++ uxBadRow :: [])
        = UXGuideEngine.load_guideline_rows ([uxGoodRow] ++ []) := by
  refine ⟨by rfl, ?_⟩
  exact C8_bad_rows_skipped.2.2.2 [uxGoodRow] [] uxBadRow (by rfl)

/-! ## Transporting the pair sort to a sort of the records themselves -/

/-- Sorting `(record, score)` pairs by the second component is the same as
sorting the records by their score function and re-pairing. -/
theorem pySortDescBy_snd_map {α : Type} (f : α → Nat) (l : List α) :
    pySortDescBy Prod.snd (l.map (fun a => (a, f a)))
      = (pySortDescBy f l).map (fun a => (a, f a)) := by
  unfold pySortDescBy
  exact (@List.map_mergeSort α (α × Nat) (leKeyDesc f) (leKeyDesc Prod.snd)
    (fun a => (a, f a)) l (fun a _ b _ => rfl)).symm

/-- `LandingPatternGenerator.search` as a sort of the matched patterns. -/
theorem landing_search_sorted_form (patterns : List LandingPattern)
    (q : String) (m : Nat) :
    LandingPatternGenerator.search patterns q m
      = (pySortDescBy (LandingPatternGenerator.landingScore (pyLower q))
          (patterns.filter (fun p =>
            decide (0 < LandingPatternGenerator.landingScore (pyLower q) p)))).take
          m := by
  rw [landing_search_eq, pySortDescBy_snd_map, ← List.map_take,
    List.map_map]
  have hid : (Prod.fst ∘ fun a : LandingPattern =>
      (a, LandingPatternGenerator.landingScore (pyLower q) a)) = id := rfl
  rw [hid, List.map_id]

/-- `CodeGenerator.search_components` as a sort of the matched snippets. -/
theorem codegen_search_sorted_form (snippets : List ComponentSnippet)
    (q : String) (fw cat : Option String) :
    CodeGenerator.search_components snippets q fw cat
      = pySortDescBy (CodeGenerator.snippetScore (pyLower q))
          (snippets.filter (fun s =>
            CodeGenerator.snippetKeep fw cat s
              && decide (0 < CodeGenerator.snippetScore (pyLower q) s))) := by
  rw [codegen_search_eq, pySortDescBy_snd_map, List.map_map]
  have hid : (Prod.fst ∘ fun s : ComponentSnippet =>
      (s, CodeGenerator.snippetScore (pyLower q) s)) = id := rfl
  rw [hid, List.map_id]

/-! ## Concrete stores used by counterexamples and witnesses -/

/-- A React styling practice whose benefits text contains "split"
(query score 5). -/
def cxP1 : TechBestPractice :=
  { stack := .REACT, category := .STYLING, topic := "Theming",
    practice := "Use design tokens", anti_pattern := "Hardcode colors",
    code_example := "tokens.ts", benefits := "split styles cleanly",
    complexity := "medium" }

/-- A React performance practice whose topic contains "split"
(query score 10). -/
def cxP2 : TechBestPractice :=
  { stack := .REACT, category := .PERFORMANCE, topic := "Code Splitting",
    practice := "Lazy load routes", anti_pattern := "One big bundle",
    code_example := "lazy.ts", benefits := "Fast loads",
    complexity := "medium" }

/-- A loadable practice store in which the lower-scored record precedes the
higher-scored one. -/
def cxPractices : List TechBestPractice := [cxP1, cxP2]

/-- A minimal component snippet named after its argument. -/
def cxSnip (n : String) : ComponentSnippet :=
  { name := n, category := .BUTTON, framework := .REACT, code := "",
    dependencies := [], props := [], preview := "", description := "" }

/-- Six snippets that all match the query "button". -/
def cxSnippets : List ComponentSnippet :=
  [cxSnip "Button A", cxSnip "Button B", cxSnip "Button C",
   cxSnip "Button D", cxSnip "Button E", cxSnip "Button F"]

/-- A landing pattern named "Minimal Single CTA". -/
def cxMin : LandingPattern :=
  { name := "Minimal Single CTA", category := .MINIMAL,
    description := "Single focused action", sections := [],
    cta_strategy := { primary_placement := "hero" },
    best_for := ["Signup"], conversion_tips := [], complexity := "low",
    keywords := ["minimal"] }

/-- A landing pattern named "Hero + Features". -/
def cxHero : LandingPattern :=
  { name := "Hero + Features", category := .CLASSIC,
    description := "Classic hero page", sections := [],
    cta_strategy := { primary_placement := "hero" },
    best_for := ["SaaS"], conversion_tips := [], complexity := "medium",
    keywords := ["classic"] }

/-- A landing store containing both patterns of the recommend scenario. -/
def cxLandingPatterns : List LandingPattern := [cxMin, cxHero]

/-- Another pattern that ties with `cxMin` on the query "minimal"
(name 10 + category 5 + one keyword 3 = 18 for both). -/
def cxMin2 : LandingPattern :=
  { name := "Minimal Two", category := .MINIMAL,
    description := "Second minimal page", sections := [],
    cta_strategy := { primary_placement := "hero" },
    best_for := [], conversion_tips := [], complexity := "low",
    keywords := ["minimal"] }

/-- A pattern that matches "minimal" only through a keyword (score 3). -/
def cxOther : LandingPattern :=
  { name := "Gallery", category := .PRODUCT,
    description := "Product gallery", sections := [],
    cta_strategy := { primary_placement := "hero" },
    best_for := [], conversion_tips := [], complexity := "medium",
    keywords := ["minimal"] }

/-- A landing store with two tied name matches (scores 10+3+... ) and one
keyword match, in store order. -/
def cxTieStore : List LandingPattern := [cxMin, cxMin2, cxOther]

/-! ## Claim C3 -/

/-- C3 as frozen is FALSE: it asserts that every search operation, including
`TechStackEngine.search_practices`, returns its results sorted by
non-increasing score.  `search_practices` computes the scores only to drop
zero-score records and returns the survivors in store order: on a store
whose first React practice scores 5 and whose second scores 10 for the query
"split", the result scores are `[5, 10]`, which is not non-increasing. -/
theorem C3_counterexample :
    ((TechStackEngine.search_practices cxPractices "React" (some "split")
        none 5).map
      (fun r => TechStackEngine.practiceScore (pyLower "split") r.practice))
      = [5, 10]
    ∧ ¬ ((TechStackEngine.search_practices cxPractices "React" (some "split")
        none 5).map
      (fun r => TechStackEngine.practiceScore (pyLower "split")
        r.practice)).Pairwise (fun a b => b ≤ a) := by
  constructor
  · rfl
  · decide

/-- C3 amended: `LandingPatternGenerator.search` and
`CodeGenerator.search_components` return results sorted by non-increasing
score with no zero-score record; `UXGuideEngine.search` satisfies the same
whenever it returns (it raises on any match, see C1); and
`TechStackEngine.search_practices` excludes zero-score records when a
non-empty query is supplied but returns the surviving records in store
order (truncated), not sorted by score. -/
theorem C3_amended_search_ranking :
    (∀ (patterns : List LandingPattern) (q : String) (m : Nat),
      (LandingPatternGenerator.search patterns q m).Pairwise
        (fun a b => LandingPatternGenerator.landingScore (pyLower q) b
          ≤ LandingPatternGenerator.landingScore (pyLower q) a)
      ∧ ∀ p ∈ LandingPatternGenerator.search patterns q m,
          0 < LandingPatternGenerator.landingScore (pyLower q) p)
    ∧ (∀ (snippets : List ComponentSnippet) (q : String)
        (fw cat : Option String),
      (CodeGenerator.search_components snippets q fw cat).Pairwise
        (fun a b => CodeGenerator.snippetScore (pyLower q) b
          ≤ CodeGenerator.snippetScore (pyLower q) a)
      ∧ ∀ t ∈ CodeGenerator.search_components snippets q fw cat,
          0 < CodeGenerator.snippetScore (pyLower q) t)
    ∧ (∀ (gs : List UXGuideline) (q : String) (d : Option String) (m : Nat)
        (res : List UXRecommendation),
      UXGuideEngine.search gs q d m = .ok res →
        res.Pairwise (fun a b =>
          UXGuideEngine.uxScore (pyLower q) b.guideline
            ≤ UXGuideEngine.uxScore (pyLower q) a.guideline)
        ∧ ∀ r ∈ res, 0 < UXGuideEngine.uxScore (pyLower q) r.guideline)
    ∧ (∀ (practices : List TechBestPractice) (stack q : String)
        (cat : Option String) (m : Nat),
      TechStackEngine.search_practices practices stack (some q) cat m
        = ((practices.filter
            (TechStackEngine.practiceKeep (pyLower stack) (some q) cat)).take
            m).map
          (fun p => StackRecommendation.mk p
            (TechStackEngine.determine_priority p)
            (TechStackEngine.get_context p)
            (TechStackEngine.get_alternatives p)
            (TechStackEngine.get_resources p))
      ∧ (pyTruthy q →
        ∀ r ∈ TechStackEngine.search_practices practices stack (some q) cat m,
          0 < TechStackEngine.practiceScore (pyLower q) r.practice)) := by
  refine ⟨?_, ?_, ?_, ?_⟩
  · intro patterns q m
    rw [landing_search_sorted_form]
    constructor
    · exact ((pairwise_pySortDescBy _ _).sublist (List.take_sublist _ _))
    · intro p hp
      have hmem : p ∈ pySortDescBy
          (LandingPatternGenerator.landingScore (pyLower q)) _ :=
        List.mem_of_mem_take hp
      have := (mem_pySortDescBy _ _ _).mp hmem
      have := (List.mem_filter.mp this).2
      simpa using this
  · intro snippets q fw cat
    rw [codegen_search_sorted_form]
    constructor
    · exact pairwise_pySortDescBy _ _
    · intro t ht
      have := (mem_pySortDescBy _ _ _).mp ht
      have := (List.mem_filter.mp this).2
      simp only [Bool.and_eq_true, decide_eq_true_eq] at this
      exact this.2
  · intro gs q d m res h
    have hnil := ux_search_ok_nil gs q d m res h
    subst hnil
    exact ⟨List.Pairwise.nil, by intro r hr; cases hr⟩
  · intro practices stack q cat m
    refine ⟨search_practices_eq practices stack (some q) cat m, ?_⟩
    intro hq r hr
    rw [search_practices_eq] at hr
    obtain ⟨p, hp, hpr⟩ := List.mem_map.mp hr
    have hkeep : TechStackEngine.practiceKeep (pyLower stack) (some q) cat p :=
      (List.mem_filter.mp (List.mem_of_mem_take hp)).2
    have hscore : 0 < TechStackEngine.practiceScore (pyLower q) p := by
      simp only [TechStackEngine.practiceKeep, pyTruthyOpt,
        Bool.and_eq_true] at hkeep
      rcases hkeep with ⟨-, hlast⟩
      rcases Bool.or_eq_true_iff.mp hlast with hfalse | hpos
      · rw [hq] at hfalse
        simp at hfalse
      · simpa using hpos
    rw [← hpr]
    exact hscore

/-- Witness for C3's amended theorem at a concrete input: the query "split"
is truthy, the first returned recommendation's practice is `cxP1`, and its
score is positive. -/
theorem C3_witness :
    pyTruthy "split" = true
    ∧ 0 < TechStackEngine.practiceScore (pyLower "split") cxP1 := by
  refine ⟨by decide, ?_⟩
  have hmem : StackRecommendation.mk cxP1
      (TechStackEngine.determine_priority cxP1)
      (TechStackEngine.get_context cxP1)
      (TechStackEngine.get_alternatives cxP1)
      (TechStackEngine.get_resources cxP1)
      ∈ TechStackEngine.search_practices cxPractices "React" (some "split")
        none 5 := by
    rw [search_practices_eq]
    simp [cxPractices]
    decide
  exact (C3_amended_search_ranking.2.2.2 cxPractices "React" "split"
    none 5).2 (by decide) _ hmem

/-! ## Claim C4 -/

/-- C4 as frozen is FALSE for `CodeGenerator.search_components`: that method
has no `max_results` parameter and performs no truncation at all.  On a
store of six snippets that all match the query "button" it returns all six
records — more than the result cap (5, the `max_results` default of every
other search in this codebase and the cap of the spec's control flow). -/
theorem C4_counterexample :
    (CodeGenerator.search_components cxSnippets "button" none none).length = 6
    ∧ ¬ (CodeGenerator.search_components cxSnippets "button" none
        none).length ≤ 5 := by
  have h6 : (CodeGenerator.search_components cxSnippets "button" none
      none).length = 6 := by
    rw [codegen_search_sorted_form]
    unfold pySortDescBy
    rw [List.length_mergeSort]
    rfl
  exact ⟨h6, by omega⟩

/-- C4 amended: `LandingPatternGenerator.search`, `UXGuideEngine.search`
(whenever it returns) and `TechStackEngine.search_practices` truncate their
results to `max_results`; `CodeGenerator.search_components` has no cap and
returns every record that passes the filters with a positive score. -/
theorem C4_amended_result_cap :
    (∀ (patterns : List LandingPattern) (q : String) (m : Nat),
      (LandingPatternGenerator.search patterns q m).length ≤ m)
    ∧ (∀ (gs : List UXGuideline) (q : String) (d : Option String) (m : Nat)
        (res : List UXRecommendation),
      UXGuideEngine.search gs q d m = .ok res → res.length ≤ m)
    ∧ (∀ (practices : List TechBestPractice) (stack : String)
        (q cat : Option String) (m : Nat),
      (TechStackEngine.search_practices practices stack q cat m).length ≤ m)
    ∧ (∀ (snippets : List ComponentSnippet) (q : String)
        (fw cat : Option String),
      (CodeGenerator.search_components snippets q fw cat).length
        = (snippets.filter (fun s => CodeGenerator.snippetKeep fw cat s
            && decide (0 < CodeGenerator.snippetScore (pyLower q) s))).length) := by
  refine ⟨?_, ?_, ?_, ?_⟩
  · intro patterns q m
    rw [landing_search_sorted_form]
    exact List.length_take_le m _
  · intro gs q d m res h
    have hnil := ux_search_ok_nil gs q d m res h
    subst hnil
    exact Nat.zero_le m
  · intro practices stack q cat m
    rw [search_practices_eq, List.length_map]
    exact List.length_take_le m _
  · intro snippets q fw cat
    rw [codegen_search_sorted_form]
    unfold pySortDescBy
    rw [List.length_mergeSort]

/-- Witness for C4's amended theorem at a concrete input: the UX search that
returns (no guideline of the default store matches "zzz") returns a list of
length at most 5. -/
theorem C4_witness :
    UXGuideEngine.search UXGuideEngine.get_default_guidelines "zzz" none 5
      = .ok []
    ∧ ([] : List UXRecommendation).length ≤ 5 := by
  have hloop : UXGuideEngine.searchLoop (pyLower "zzz") none
      UXGuideEngine.get_default_guidelines [] = .ok [] := by rfl
  have hok : UXGuideEngine.search UXGuideEngine.get_default_guidelines
      "zzz" none 5 = .ok [] := by
    simp [UXGuideEngine.search, hloop, pySortDescBy]
  exact ⟨hok, C4_amended_result_cap.2.1 UXGuideEngine.get_default_guidelines
    "zzz" none 5 [] hok⟩

/-! ## Claim C6 -/

/-- `get_pattern` is the first case-insensitive name match of the store. -/
theorem get_pattern_eq_find (patterns : List LandingPattern) (name : String) :
    LandingPatternGenerator.get_pattern patterns name
      = patterns.find? (fun p => pyLower p.name == pyLower name) := by
  induction patterns with
  | nil => rfl
  | cons p ps ih =>
    rw [LandingPatternGenerator.get_pattern, List.find?]
    by_cases h : (pyLower p.name == pyLower name) = true
    · rw [h]
      simp
    · simp only [Bool.not_eq_true] at h
      rw [h, ih]
      simp

/-- C6 as frozen is FALSE: it asserts that a goal CONTAINING a known goal
word maps to the preferred pattern.  The code tests the goal by list
membership (`goal_lower in ["signup", ...]`), i.e. exact equality; only the
"pricing" branch uses containment.  The goal "signup now" contains "signup"
and the store contains the preferred pattern "Minimal Single CTA", yet
`recommend` falls through to the b2b/enterprise/saas product branch, looks
up "Comparison Table" and "Trust Badges", and returns `None`. -/
theorem C6_counterexample :
    LandingPatternGenerator.recommend cxLandingPatterns "SaaS" "signup now"
        "B2C" = none
    ∧ LandingPatternGenerator.get_pattern cxLandingPatterns
        "Minimal Single CTA" = some cxMin := by
  exact ⟨rfl, rfl⟩

/-- No goal word of the exact-match groups contains "pricing", so a goal
that contains "pricing" is unequal to every such word. -/
theorem pricing_goal_ne (gl w : String) (hpr : pyIn "pricing" gl = true)
    (hw : pyIn "pricing" w = false) : (gl == w) = false := by
  cases he : gl == w
  · rfl
  · rw [beq_iff_eq.mp he] at hpr
    rw [hpr] at hw
    exact absurd hw (by decide)

/-- C6 amended: `recommend` follows the fixed decision table with the goal
checked by EXACT membership in the known goal-word groups (containment only
for "pricing"), first matching row winning: goal equal to
"signup"/"register"/"newsletter" yields the pattern named "Minimal Single
CTA" if present, else "Hero + Features"; goal equal to
"purchase"/"buy"/"order" yields "Product Showcase" else "Hero + Features";
goal equal to "demo"/"trial" yields "Interactive Demo" else "Video-First";
a goal containing "pricing" yields "Pricing Preview" with NO fallback;
failing all goal rows, a product type equal to "b2b"/"enterprise"/"saas"
yields "Comparison Table" else "Trust Badges"; and if nothing matches the
default "Hero + Features" is looked up (`get_pattern` returning the first
case-insensitive name match, `None` when absent).  In particular
`recommend(product_type="SaaS", goal="signup")` returns the pattern named
"Minimal Single CTA" if present in the store, else "Hero + Features". -/
theorem C6_amended_recommend_table :
    (∀ (patterns : List LandingPattern) (product_type goal audience : String),
      (pyLower goal == "signup" || pyLower goal == "register"
        || pyLower goal == "newsletter") = true →
      LandingPatternGenerator.recommend patterns product_type goal audience
        = LandingPatternGenerator.pyOrOpt
            (LandingPatternGenerator.get_pattern patterns "Minimal Single CTA")
            (LandingPatternGenerator.get_pattern patterns "Hero + Features"))
    ∧ (∀ (patterns : List LandingPattern) (product_type goal audience : String),
      (pyLower goal == "purchase" || pyLower goal == "buy"
        || pyLower goal == "order") = true →
      LandingPatternGenerator.recommend patterns product_type goal audience
        = LandingPatternGenerator.pyOrOpt
            (LandingPatternGenerator.get_pattern patterns "Product Showcase")
            (LandingPatternGenerator.get_pattern patterns "Hero + Features"))
    ∧ (∀ (patterns : List LandingPattern) (product_type goal audience : String),
      (pyLower goal == "demo" || pyLower goal == "trial") = true →
      LandingPatternGenerator.recommend patterns product_type goal audience
        = LandingPatternGenerator.pyOrOpt
            (LandingPatternGenerator.get_pattern patterns "Interactive Demo")
            (LandingPatternGenerator.get_pattern patterns "Video-First"))
    ∧ (∀ (patterns : List LandingPattern) (product_type goal audience : String),
      pyIn "pricing" (pyLower goal) = true →
      LandingPatternGenerator.recommend patterns product_type goal audience
        = LandingPatternGenerator.get_pattern patterns "Pricing Preview")
    ∧ (∀ (patterns : List LandingPattern) (product_type goal audience : String),
      (pyLower goal == "signup" || pyLower goal == "register"
        || pyLower goal == "newsletter") = false →
      (pyLower goal == "purchase" || pyLower goal == "buy"
        || pyLower goal == "order") = false →
      (pyLower goal == "demo" || pyLower goal == "trial") = false →
      pyIn "pricing" (pyLower goal) = false →
      (pyLower product_type == "b2b" || pyLower product_type == "enterprise"
        || pyLower product_type == "saas") = true →
      LandingPatternGenerator.recommend patterns product_type goal audience
        = LandingPatternGenerator.pyOrOpt
            (LandingPatternGenerator.get_pattern patterns "Comparison Table")
            (LandingPatternGenerator.get_pattern patterns "Trust Badges"))
    ∧ (∀ (patterns : List LandingPattern) (product_type goal audience : String),
      (pyLower goal == "signup" || pyLower goal == "register"
        || pyLower goal == "newsletter") = false →
      (pyLower goal == "purchase" || pyLower goal == "buy"
        || pyLower goal == "order") = false →
      (pyLower goal == "demo" || pyLower goal == "trial") = false →
      pyIn "pricing" (pyLower goal) = false →
      (pyLower product_type == "b2b" || pyLower product_type == "enterprise"
        || pyLower product_type == "saas") = false →
      LandingPatternGenerator.recommend patterns product_type goal audience
        = LandingPatternGenerator.get_pattern patterns "Hero + Features")
    ∧ (∀ (patterns : List LandingPattern) (audience : String),
      LandingPatternGenerator.recommend patterns "SaaS" "signup" audience
        = LandingPatternGenerator.pyOrOpt
            (patterns.find? (fun p => pyLower p.name == "minimal single cta"))
            (patterns.find? (fun p => pyLower p.name == "hero + features"))) := by
  have hb1 : ∀ (patterns : List LandingPattern)
      (product_type goal audience : String),
      (pyLower goal == "signup" || pyLower goal == "register"
        || pyLower goal == "newsletter") = true →
      LandingPatternGenerator.recommend patterns product_type goal audience
        = LandingPatternGenerator.pyOrOpt
            (LandingPatternGenerator.get_pattern patterns "Minimal Single CTA")
            (LandingPatternGenerator.get_pattern patterns "Hero + Features") := by
    intro patterns product_type goal audience h
    simp only [LandingPatternGenerator.recommend]
    rw [if_pos h]
  refine ⟨hb1, ?_, ?_, ?_, ?_, ?_, ?_⟩
  · intro patterns product_type goal audience h
    have hgl : pyLower goal = "purchase" ∨ pyLower goal = "buy"
        ∨ pyLower goal = "order" := by
      rcases Bool.or_eq_true_iff.mp h with h2 | h2
      · rcases Bool.or_eq_true_iff.mp h2 with h3 | h3
        · exact Or.inl (beq_iff_eq.mp h3)
        · exact Or.inr (Or.inl (beq_iff_eq.mp h3))
      · exact Or.inr (Or.inr (beq_iff_eq.mp h2))
    rcases hgl with he | he | he <;>
      (simp only [LandingPatternGenerator.recommend, he]
       rw [if_neg (by decide), if_pos (by decide)])
  · intro patterns product_type goal audience h
    have hgl : pyLower goal = "demo" ∨ pyLower goal = "trial" := by
      rcases Bool.or_eq_true_iff.mp h with h2 | h2
      · exact Or.inl (beq_iff_eq.mp h2)
      · exact Or.inr (beq_iff_eq.mp h2)
    rcases hgl with he | he <;>
      (simp only [LandingPatternGenerator.recommend, he]
       rw [if_neg (by decide), if_neg (by decide), if_pos (by decide)])
  · intro patterns product_type goal audience hpr
    have hs := pricing_goal_ne (pyLower goal) "signup" hpr (by decide)
    have hr := pricing_goal_ne (pyLower goal) "register" hpr (by decide)
    have hn := pricing_goal_ne (pyLower goal) "newsletter" hpr (by decide)
    have hp := pricing_goal_ne (pyLower goal) "purchase" hpr (by decide)
    have hb := pricing_goal_ne (pyLower goal) "buy" hpr (by decide)
    have ho := pricing_goal_ne (pyLower goal) "order" hpr (by decide)
    have hd := pricing_goal_ne (pyLower goal) "demo" hpr (by decide)
    have ht := pricing_goal_ne (pyLower goal) "trial" hpr (by decide)
    simp only [LandingPatternGenerator.recommend]
    rw [if_neg (by simp [hs, hr, hn]), if_neg (by simp [hp, hb, ho]),
      if_neg (by simp [hd, ht]), if_pos hpr]
  · intro patterns product_type goal audience h1 h2 h3 h4 h5
    simp only [LandingPatternGenerator.recommend]
    rw [if_neg (by simp [h1]), if_neg (by simp [h2]), if_neg (by simp [h3]),
      if_neg (by simp [h4]), if_pos h5]
  · intro patterns product_type goal audience h1 h2 h3 h4 h5
    simp only [LandingPatternGenerator.recommend]
    rw [if_neg (by simp [h1]), if_neg (by simp [h2]), if_neg (by simp [h3]),
      if_neg (by simp [h4]), if_neg (by simp [h5])]
  · intro patterns audience
    rw [hb1 patterns "SaaS" "signup" audience (by rfl)]
    rw [get_pattern_eq_find, get_pattern_eq_find]
    have h1 : pyLower "Minimal Single CTA" = "minimal single cta" := by rfl
    have h2 : pyLower "Hero + Features" = "hero + features" := by rfl
    rw [h1, h2]

/-- Witness for C6's amended theorem at a concrete input: the goal "signup"
is in the signup group and `recommend` returns the preferred pattern, which
is present in the concrete store. -/
theorem C6_witness :
    (pyLower "signup" == "signup" || pyLower "signup" == "register"
      || pyLower "signup" == "newsletter") = true
    ∧ LandingPatternGenerator.recommend cxLandingPatterns "SaaS" "signup"
        "B2C" = LandingPatternGenerator.pyOrOpt
          (LandingPatternGenerator.get_pattern cxLandingPatterns
            "Minimal Single CTA")
          (LandingPatternGenerator.get_pattern cxLandingPatterns
            "Hero + Features") := by
  exact ⟨by decide,
    C6_amended_recommend_table.1 cxLandingPatterns "SaaS" "signup" "B2C"
      (by decide)⟩

/-! ## Claim C7 -/

/-- What `quick_win_of` guarantees about a produced recommendation. -/
theorem quick_win_of_some (g : UXGuideline) (r : UXRecommendation)
    (h : UXGuideEngine.quick_win_of g = some r) :
    r.guideline = g ∧ g.complexity = "low"
      ∧ (UXGuideEngine.determine_user_impact g = "high"
         ∨ UXGuideEngine.determine_user_impact g = "medium") := by
  unfold UXGuideEngine.quick_win_of at h
  by_cases h1 : (g.complexity == "low") = true
  · rw [if_pos h1] at h
    by_cases h2 : (UXGuideEngine.determine_user_impact g == "high"
        || UXGuideEngine.determine_user_impact g == "medium") = true
    · rw [if_pos h2] at h
      cases h
      refine ⟨rfl, by simpa using h1, ?_⟩
      rcases Bool.or_eq_true_iff.mp h2 with h3 | h3
      · exact Or.inl (by simpa using h3)
      · exact Or.inr (by simpa using h3)
    · rw [if_neg h2] at h
      cases h
  · rw [if_neg h1] at h
    cases h

/-- The property of a quick-win recommendation that C7 asserts. -/
def QuickWinOk (r : UXRecommendation) : Prop :=
  r.guideline.complexity = "low"
    ∧ (UXGuideEngine.determine_user_impact r.guideline = "high"
       ∨ UXGuideEngine.determine_user_impact r.guideline = "medium")

/-- Every eligible quick win is a low-complexity, high/medium-impact record. -/
theorem mem_quick_wins_ok (gs : List UXGuideline) (r : UXRecommendation)
    (h : r ∈ UXGuideEngine.quick_wins_list gs) : QuickWinOk r := by
  rw [quick_wins_list_eq] at h
  obtain ⟨g, -, hg⟩ := List.mem_filterMap.mp h
  obtain ⟨hrg, hlow, himp⟩ := quick_win_of_some g r hg
  exact ⟨by rw [hrg]; exact hlow, by rw [hrg]; exact himp⟩

/-- The invariant of `domain_groups`: each group holds quick-win records of
exactly its key domain. -/
def GroupsOk (groups : List (UXDomain × List UXRecommendation)) : Prop :=
  ∀ p ∈ groups, ∀ r ∈ p.2, QuickWinOk r ∧ r.guideline.domain = p.1

theorem addToGroups_ok (groups : List (UXDomain × List UXRecommendation))
    (r : UXRecommendation) (hg : GroupsOk groups) (hr : QuickWinOk r) :
    GroupsOk (UXGuideEngine.addToGroups groups r) := by
  unfold UXGuideEngine.addToGroups
  by_cases hany : (groups.any (fun p => p.1 == r.guideline.domain)) = true
  · rw [if_pos hany]
    intro p' hp' x hx
    obtain ⟨p, hp, hpe⟩ := List.mem_map.mp hp'
    by_cases hd : (p.1 == r.guideline.domain) = true
    · rw [if_pos hd] at hpe
      subst hpe
      rcases List.mem_append.mp hx with hx | hx
      · exact hg p hp x hx
      · rw [List.mem_singleton.mp hx]
        exact ⟨hr, (beq_iff_eq.mp hd).symm⟩
    · rw [if_neg hd] at hpe
      subst hpe
      exact hg p hp x hx
  · rw [if_neg hany]
    intro p' hp' x hx
    rcases List.mem_append.mp hp' with hp | hp
    · exact hg p' hp x hx
    · rw [List.mem_singleton.mp hp] at hx ⊢
      rw [List.mem_singleton.mp hx]
      exact ⟨hr, rfl⟩

theorem foldl_addToGroups_ok (l : List UXRecommendation)
    (hl : ∀ r ∈ l, QuickWinOk r) :
    ∀ (groups0 : List (UXDomain × List UXRecommendation)),
      GroupsOk groups0 →
      GroupsOk (List.foldl UXGuideEngine.addToGroups groups0 l) := by
  induction l with
  | nil => intro groups0 h0; exact h0
  | cons x xs ih =>
    intro groups0 h0
    rw [List.foldl_cons]
    exact ih (fun r hr => hl r (List.mem_cons_of_mem x hr)) _
      (addToGroups_ok groups0 x h0 (hl x (List.mem_cons_self x xs)))

/-- The built groups satisfy the invariant. -/
theorem domain_groups_ok (gs : List UXGuideline) :
    GroupsOk (UXGuideEngine.domain_groups gs) := by
  unfold UXGuideEngine.domain_groups
  exact foldl_addToGroups_ok _ (fun r hr => mem_quick_wins_ok gs r hr) []
    (by intro p hp; cases hp)

/-- `addToGroups` never removes a key and adds at most the new record's
domain, so key-nodupness is preserved. -/
theorem addToGroups_keys_nodup
    (groups : List (UXDomain × List UXRecommendation))
    (r : UXRecommendation) (h : (groups.map Prod.fst).Nodup) :
    ((UXGuideEngine.addToGroups groups r).map Prod.fst).Nodup := by
  unfold UXGuideEngine.addToGroups
  by_cases hany : (groups.any (fun p => p.1 == r.guideline.domain)) = true
  · rw [if_pos hany]
    have hkeys : (groups.map (fun p =>
        if p.1 == r.guideline.domain then (p.1, p.2 ++ [r]) else p)).map
        Prod.fst = groups.map Prod.fst := by
      rw [List.map_map]
      refine List.map_congr_left ?_
      intro p _
      show (if (p.1 == r.guideline.domain) = true then (p.1, p.2 ++ [r])
        else p).1 = p.1
      by_cases hd : (p.1 == r.guideline.domain) = true
      · rw [if_pos hd]
      · rw [if_neg hd]
    rw [hkeys]
    exact h
  · rw [if_neg hany]
    rw [List.map_append]
    have hnot : r.guideline.domain ∉ groups.map Prod.fst := by
      intro hmem
      obtain ⟨p, hp, hpe⟩ := List.mem_map.mp hmem
      have : groups.any (fun p => p.1 == r.guideline.domain) = true :=
        List.any_eq_true.mpr ⟨p, hp, by rw [hpe]; exact beq_self_eq_true _⟩
      exact hany this
    simp only [List.map_cons, List.map_nil]
    exact List.Nodup.append h (List.nodup_singleton _)
      (by intro a ha hb; rw [List.mem_singleton.mp hb] at ha; exact hnot ha)

theorem foldl_addToGroups_keys_nodup (l : List UXRecommendation) :
    ∀ (groups0 : List (UXDomain × List UXRecommendation)),
      ((groups0.map Prod.fst).Nodup) →
      ((List.foldl UXGuideEngine.addToGroups groups0 l).map Prod.fst).Nodup := by
  induction l with
  | nil => intro groups0 h0; exact h0
  | cons x xs ih =>
    intro groups0 h0
    rw [List.foldl_cons]
    exact ih _ (addToGroups_keys_nodup groups0 x h0)

/-- The group keys are pairwise distinct. -/
theorem domain_groups_keys_nodup (gs : List UXGuideline) :
    ((UXGuideEngine.domain_groups gs).map Prod.fst).Nodup := by
  unfold UXGuideEngine.domain_groups
  exact foldl_addToGroups_keys_nodup _ [] (List.nodup_nil)

/-- Reading a group under the invariant. -/
theorem lookupGroup_mem (groups : List (UXDomain × List UXRecommendation))
    (d : UXDomain) (r : UXRecommendation) (hg : GroupsOk groups)
    (h : r ∈ UXGuideEngine.lookupGroup groups d) :
    QuickWinOk r ∧ r.guideline.domain = d := by
  unfold UXGuideEngine.lookupGroup at h
  cases hf : groups.find? (fun p => p.1 == d) with
  | none => rw [hf] at h; cases h
  | some p =>
    rw [hf] at h
    have hmem : p ∈ groups := List.mem_of_find?_eq_some hf
    have hkey := List.find?_some hf
    simp only [beq_iff_eq] at hkey
    obtain ⟨hok, hdom⟩ := hg p hmem r h
    exact ⟨hok, by rw [hdom]; exact hkey⟩

/-- Popping a group preserves the invariant. -/
theorem popGroup_ok (groups : List (UXDomain × List UXRecommendation))
    (d : UXDomain) (hg : GroupsOk groups) :
    GroupsOk (UXGuideEngine.popGroup groups d) := by
  unfold UXGuideEngine.popGroup
  intro p' hp' r hr
  obtain ⟨p, hp, hpe⟩ := List.mem_map.mp hp'
  by_cases hd : (p.1 == d) = true
  · rw [if_pos hd] at hpe
    subst hpe
    exact hg p hp r ((List.tail_sublist p.2).subset hr)
  · rw [if_neg hd] at hpe
    subst hpe
    exact hg p hp r hr

/-- The draw loop never returns more than its remaining capacity. -/
theorem drawLoop_length (ds : List UXDomain) :
    ∀ (fuel : Nat) (groups : List (UXDomain × List UXRecommendation)),
      (UXGuideEngine.drawLoop fuel ds groups).length ≤ fuel := by
  induction ds with
  | nil =>
    intro fuel groups
    cases fuel <;> simp [UXGuideEngine.drawLoop]
  | cons d ds ih =>
    intro fuel groups
    cases fuel with
    | zero => simp [UXGuideEngine.drawLoop]
    | succ k =>
      rw [UXGuideEngine.drawLoop]
      cases h : UXGuideEngine.lookupGroup groups d with
      | nil => exact ih (k + 1) groups
      | cons r rest =>
        simp only [List.length_cons]
        exact Nat.succ_le_succ (ih k _)

/-- Every drawn record is a quick win whose domain is among the remaining
domains. -/
theorem drawLoop_mem (ds : List UXDomain) :
    ∀ (fuel : Nat) (groups : List (UXDomain × List UXRecommendation))
      (r : UXRecommendation), GroupsOk groups →
      r ∈ UXGuideEngine.drawLoop fuel ds groups →
      QuickWinOk r ∧ r.guideline.domain ∈ ds := by
  induction ds with
  | nil =>
    intro fuel groups r _ hr
    cases fuel <;> simp [UXGuideEngine.drawLoop] at hr
  | cons d ds ih =>
    intro fuel groups r hg hr
    cases fuel with
    | zero => simp [UXGuideEngine.drawLoop] at hr
    | succ k =>
      rw [UXGuideEngine.drawLoop] at hr
      cases h : UXGuideEngine.lookupGroup groups d with
      | nil =>
        rw [h] at hr
        obtain ⟨hok, hdom⟩ := ih (k + 1) groups r hg hr
        exact ⟨hok, List.mem_cons_of_mem d hdom⟩
      | cons r0 rest =>
        rw [h] at hr
        rcases List.mem_cons.mp hr with hr | hr
        · obtain ⟨hok, hdom⟩ := lookupGroup_mem groups d r0 hg
            (by rw [h]; exact List.mem_cons_self r0 rest)
          rw [hr]
          exact ⟨hok, by rw [hdom]; exact List.mem_cons_self d ds⟩
        · obtain ⟨hok, hdom⟩ := ih k _ r (popGroup_ok groups d hg) hr
          exact ⟨hok, List.mem_cons_of_mem d hdom⟩

/-- The drawn records have pairwise distinct domains when the domain list
has no duplicates. -/
theorem drawLoop_domains_nodup (ds : List UXDomain) :
    ∀ (fuel : Nat) (groups : List (UXDomain × List UXRecommendation)),
      GroupsOk groups → ds.Nodup →
      ((UXGuideEngine.drawLoop fuel ds groups).map
        (fun r => r.guideline.domain)).Nodup := by
  induction ds with
  | nil =>
    intro fuel groups _ _
    cases fuel <;> simp [UXGuideEngine.drawLoop]
  | cons d ds ih =>
    intro fuel groups hg hnd
    cases fuel with
    | zero => simp [UXGuideEngine.drawLoop]
    | succ k =>
      rw [UXGuideEngine.drawLoop]
      have hnd2 := List.nodup_cons.mp hnd
      cases h : UXGuideEngine.lookupGroup groups d with
      | nil => exact ih (k + 1) groups hg hnd2.2
      | cons r0 rest =>
        simp only [List.map_cons]
        refine List.nodup_cons.mpr ⟨?_, ih k _ (popGroup_ok groups d hg)
          hnd2.2⟩
        intro hmem
        obtain ⟨r, hr, hre⟩ := List.mem_map.mp hmem
        have hdr := (drawLoop_mem ds k _ r (popGroup_ok groups d hg) hr).2
        have hd0 : r0.guideline.domain = d :=
          (lookupGroup_mem groups d r0 hg
            (by rw [h]; exact List.mem_cons_self r0 rest)).2
        rw [hre, hd0] at hdr
        exact hnd2.1 hdr

/-- C7: for every store, every cap, and every outcome of the randomized group
order (any permutation of the group keys), `UXGuideEngine.get_quick_wins`
returns at most the cap of recommendations, each built from a guideline with
complexity "low" and derived user impact "high" or "medium", and no two
returned entries share a domain. -/
theorem C7_quick_wins_cap_and_diversity (gs : List UXGuideline)
    (shuffled : List UXDomain) (m : Nat)
    (hperm : List.Perm shuffled
      ((UXGuideEngine.domain_groups gs).map Prod.fst)) :
    (UXGuideEngine.get_quick_wins gs shuffled m).length ≤ m
    ∧ (∀ r ∈ UXGuideEngine.get_quick_wins gs shuffled m,
        r.guideline.complexity = "low"
        ∧ (UXGuideEngine.determine_user_impact r.guideline = "high"
           ∨ UXGuideEngine.determine_user_impact r.guideline = "medium"))
    ∧ ((UXGuideEngine.get_quick_wins gs shuffled m).map
        (fun r => r.guideline.domain)).Nodup := by
  have hg := domain_groups_ok gs
  have hnd : shuffled.Nodup :=
    hperm.symm.nodup (domain_groups_keys_nodup gs)
  unfold UXGuideEngine.get_quick_wins
  refine ⟨drawLoop_length shuffled m _, ?_, ?_⟩
  · intro r hr
    exact (drawLoop_mem shuffled m _ r hg hr).1
  · exact drawLoop_domains_nodup shuffled m _ hg hnd

/-- Witness for C7 at a concrete input: on the default store only the A11y
guideline is a quick win, `[A11Y]` is a permutation of the group keys, and
the conclusions hold for cap 5. -/
theorem C7_witness :
    List.Perm [UXDomain.A11Y]
      ((UXGuideEngine.domain_groups UXGuideEngine.get_default_guidelines).map
        Prod.fst)
    ∧ (UXGuideEngine.get_quick_wins UXGuideEngine.get_default_guidelines
        [UXDomain.A11Y] 5).length ≤ 5
    ∧ ((UXGuideEngine.get_quick_wins UXGuideEngine.get_default_guidelines
        [UXDomain.A11Y] 5).map (fun r => r.guideline.domain)).Nodup := by
  have hperm : List.Perm [UXDomain.A11Y]
      ((UXGuideEngine.domain_groups UXGuideEngine.get_default_guidelines).map
        Prod.fst) := by
    have : (UXGuideEngine.domain_groups
        UXGuideEngine.get_default_guidelines).map Prod.fst
        = [UXDomain.A11Y] := by rfl
    rw [this]
  have h := C7_quick_wins_cap_and_diversity
    UXGuideEngine.get_default_guidelines [UXDomain.A11Y] 5 hperm
  exact ⟨hperm, h.1, h.2.2⟩

/-! ## Claim C9 -/

/-- C9: among records with equal scores the search results preserve the
original store order — the descending-score sort is stable.  Stated for the
two sorting searches (`LandingPatternGenerator.search`,
`CodeGenerator.search_components`): the equal-scored records of the output
are, in order, a sublist of the equal-scored records of the store, and with
a positive score and no truncation they are exactly the equal-scored
matching records of the store in store order; `search_practices` returns
the filtered records in store order outright. -/
theorem C9_stable_tie_break :
    (∀ (patterns : List LandingPattern) (q : String) (m s : Nat),
      List.Sublist
        ((LandingPatternGenerator.search patterns q m).filter
          (fun p => LandingPatternGenerator.landingScore (pyLower q) p == s))
        (patterns.filter
          (fun p => LandingPatternGenerator.landingScore (pyLower q) p == s)))
    ∧ (∀ (patterns : List LandingPattern) (q : String) (m s : Nat),
      0 < s → patterns.length ≤ m →
      (LandingPatternGenerator.search patterns q m).filter
          (fun p => LandingPatternGenerator.landingScore (pyLower q) p == s)
        = patterns.filter
          (fun p => LandingPatternGenerator.landingScore (pyLower q) p == s))
    ∧ (∀ (snippets : List ComponentSnippet) (q : String)
        (fw cat : Option String) (s : Nat),
      0 < s →
      (CodeGenerator.search_components snippets q fw cat).filter
          (fun t => CodeGenerator.snippetScore (pyLower q) t == s)
        = snippets.filter (fun t => CodeGenerator.snippetKeep fw cat t
            && (CodeGenerator.snippetScore (pyLower q) t == s)))
    ∧ (∀ (practices : List TechBestPractice) (stack : String)
        (qo cat : Option String) (m : Nat),
      List.Sublist
        ((TechStackEngine.search_practices practices stack qo cat m).map
          (fun r => r.practice))
        practices) := by
  refine ⟨?_, ?_, ?_, ?_⟩
  · intro patterns q m s
    rw [landing_search_sorted_form]
    have h1 := (List.take_sublist m
      (pySortDescBy (LandingPatternGenerator.landingScore (pyLower q))
        (patterns.filter (fun p =>
          decide (0 < LandingPatternGenerator.landingScore (pyLower q) p))))).filter
      (fun p => LandingPatternGenerator.landingScore (pyLower q) p == s)
    rw [filter_pySortDescBy] at h1
    rw [List.filter_filter] at h1
    refine h1.trans ?_
    have h2 : patterns.filter (fun p =>
        (LandingPatternGenerator.landingScore (pyLower q) p == s)
          && decide (0 < LandingPatternGenerator.landingScore (pyLower q) p))
        = (patterns.filter (fun p =>
            LandingPatternGenerator.landingScore (pyLower q) p == s)).filter
          (fun p =>
            decide (0 < LandingPatternGenerator.landingScore (pyLower q) p)) := by
      rw [List.filter_filter]
      exact List.filter_congr (fun a _ => by rw [Bool.and_comm])
    rw [h2]
    exact List.filter_sublist _
  · intro patterns q m s hs hm
    rw [landing_search_sorted_form]
    have hlen : (pySortDescBy
        (LandingPatternGenerator.landingScore (pyLower q))
        (patterns.filter (fun p =>
          decide (0 < LandingPatternGenerator.landingScore (pyLower q)
            p)))).length ≤ m := by
      unfold pySortDescBy
      rw [List.length_mergeSort]
      exact Nat.le_trans (List.length_filter_le _ _) hm
    rw [List.take_of_length_le hlen, filter_pySortDescBy,
      List.filter_filter]
    refine List.filter_congr ?_
    intro a _
    by_cases hks : (LandingPatternGenerator.landingScore (pyLower q) a == s)
        = true
    · have ha := beq_iff_eq.mp hks
      rw [hks, ha]
      simp [hs]
    · simp only [Bool.not_eq_true] at hks
      rw [hks]
      simp
  · intro snippets q fw cat s hs
    rw [codegen_search_sorted_form, filter_pySortDescBy,
      List.filter_filter]
    refine List.filter_congr ?_
    intro a _
    by_cases hks : (CodeGenerator.snippetScore (pyLower q) a == s) = true
    · have ha := beq_iff_eq.mp hks
      rw [hks, ha]
      simp [hs]
    · simp only [Bool.not_eq_true] at hks
      rw [hks]
      simp
  · intro practices stack qo cat m
    rw [search_practices_eq, List.map_map]
    have hid : ((fun r : StackRecommendation => r.practice)
        ∘ fun p => StackRecommendation.mk p
          (TechStackEngine.determine_priority p)
          (TechStackEngine.get_context p)
          (TechStackEngine.get_alternatives p)
          (TechStackEngine.get_resources p)) = id := rfl
    rw [hid, List.map_id]
    exact (List.take_sublist m _).trans (List.filter_sublist practices)

/-- Witness for C9 at a concrete input: on a store with two patterns tied at
score 18 for the query "minimal", the untruncated search output lists the
tied patterns in store order. -/
theorem C9_witness :
    0 < 18 ∧ cxTieStore.length ≤ 5
    ∧ (LandingPatternGenerator.search cxTieStore "minimal" 5).filter
        (fun p =>
          LandingPatternGenerator.landingScore (pyLower "minimal") p == 18)
      = cxTieStore.filter (fun p =>
          LandingPatternGenerator.landingScore (pyLower "minimal") p == 18) := by
  exact ⟨by decide, by decide,
    C9_stable_tie_break.2.1 cxTieStore "minimal" 5 18 (by decide) (by decide)⟩

/-! ## Claim C10 -/

/-- C10: every query-time operation leaves the engine's record store
unchanged.  Each operation is embedded as a state transformer over the
instance state; none of the Python bodies assigns to `self.<store>` or
mutates a stored list (the in-place `sort`/`pop` calls operate on lists
freshly built inside the call), so every operation returns the store it was
given. -/
theorem C10_queries_leave_store_unchanged :
    (∀ (st : LandingState) (q : String) (m : Nat),
      (LandingPatternGenerator.search_st st q m).2 = st)
    ∧ (∀ (st : LandingState) (pt g a : String),
      (LandingPatternGenerator.recommend_st st pt g a).2 = st)
    ∧ (∀ (st : LandingState) (p : LandingPattern),
      (LandingPatternGenerator.generate_structure_st st p).2 = st)
    ∧ (∀ (st : UXState) (q : String) (d : Option String) (m : Nat),
      (UXGuideEngine.search_st st q d m).2 = st)
    ∧ (∀ (st : UXState) (sh : List UXDomain) (m : Nat),
      (UXGuideEngine.get_quick_wins_st st sh m).2 = st)
    ∧ (∀ (st : UXState) (ds : Option (List String)),
      (UXGuideEngine.get_checklist_st st ds).2 = st)
    ∧ (∀ (st : TechState) (stack : String) (q c : Option String) (m : Nat),
      (TechStackEngine.search_practices_st st stack q c m).2 = st)
    ∧ (∀ (st : TechState) (stack : String) (i e : Option String),
      (TechStackEngine.get_performance_tips_st st stack i e).2 = st)
    ∧ (∀ (st : CodegenState) (q : String) (f c : Option String),
      (CodeGenerator.search_components_st st q f c).2 = st) :=
  ⟨fun _ _ _ => rfl, fun _ _ _ _ => rfl, fun _ _ => rfl, fun _ _ _ _ => rfl,
   fun _ _ _ => rfl, fun _ _ => rfl, fun _ _ _ _ _ => rfl,
   fun _ _ _ _ => rfl, fun _ _ _ _ => rfl⟩
